import Mathlib

/-!
# Verification of the aldrin-sdk pool and staking clients

Shallow embedding of the TypeScript sources of the aldrin-exchange/aldrin-sdk
repository (`PoolClient`, `StakingClient`, and the static pool tables of
`types.ts`).  Conventions of the embedding:

* `PublicKey` values are identified by their base58 strings (`PK := String`);
  only equality of keys matters to the code under verification.
* `BN` (bn.js big integers, all used non-negatively here) are `Nat`.
  `BN.mul` / `BN.div` / `BN.divn` are `Nat` multiplication and floor division
  (bn.js divisions truncate toward zero, which on non-negative operands is
  floor).  `BN.muln` with a possibly fractional JavaScript scalar is modelled
  word-for-word after bn.js `imuln`: the 26-bit little-endian words of the
  integer are each scaled by the scalar with bitwise truncation and carry
  propagation (`bnMuln` below).  JavaScript scalar arithmetic is idealized as
  exact rational arithmetic.
* Network responses (mint supplies, vault balances, wallet token-account
  listings, program-account listings) and freshly generated keypairs are
  passed in explicitly as an environment record to each client method.
* A JavaScript exception is an `Except` error: `JsError.thrown msg` for an
  explicit `throw new Error(msg)`, `JsError.typeError` for a runtime
  undefined-property access.
-/

/-- bn.js stores big integers as little-endian words of 26 bits. -/
def bnWordSize : ℕ := 67108864

/-- JavaScript bitwise truncation of a non-negative rational to a natural
number (`x | 0`, or `x & mask` before masking): floor toward zero. -/
def floorNatQ (q : ℚ) : ℕ := (⌊q⌋).toNat

/-- Little-endian 26-bit words of a natural number; `fuel` bounds the
recursion and any `fuel ≥ n` is exact. -/
def natWordsAux : ℕ → ℕ → List ℕ
  | 0, _ => []
  | _ + 1, 0 => []
  | fuel + 1, n + 1 => ((n + 1) % bnWordSize) :: natWordsAux fuel ((n + 1) / bnWordSize)

/-- Little-endian 26-bit words of a natural number, as bn.js stores them. -/
def natWords (n : ℕ) : List ℕ := natWordsAux n n

/-- The value represented by a little-endian list of 26-bit words. -/
def wordsVal : List ℕ → ℕ
  | [] => 0
  | w :: ws => w + bnWordSize * wordsVal ws

/-- One pass of bn.js `imuln`: scale each word by the scalar `num`,
truncating bitwise and propagating the integer carry; the final carry is
the value of the remaining high words. -/
def imulnGo (num : ℚ) : List ℕ → ℕ → ℕ
  | [], carry => carry
  | w :: rest, carry =>
    let t := floorNatQ ((w : ℚ) * num)
    let lo := t % bnWordSize + carry % bnWordSize
    let c := carry / bnWordSize + t / bnWordSize + lo / bnWordSize
    lo % bnWordSize + bnWordSize * imulnGo num rest c

/-- bn.js `muln num` on a non-negative big integer with a non-negative
JavaScript scalar `num` (possibly fractional). -/
def bnMuln (m : ℕ) (num : ℚ) : ℕ := imulnGo num (natWords m) 0

theorem floorNatQ_natCast (n : ℕ) : floorNatQ (n : ℚ) = n := by
  simp [floorNatQ]

theorem floorNatQ_le {q : ℚ} (h : 0 ≤ q) : (floorNatQ q : ℚ) ≤ q := by
  unfold floorNatQ
  have h0 : (0 : ℤ) ≤ ⌊q⌋ := Int.floor_nonneg.mpr h
  have h1 : ((⌊q⌋.toNat : ℤ) : ℚ) = ((⌊q⌋ : ℤ) : ℚ) := by
    rw [Int.toNat_of_nonneg h0]
  calc ((⌊q⌋.toNat : ℕ) : ℚ) = ((⌊q⌋ : ℤ) : ℚ) := by push_cast at h1 ⊢; exact_mod_cast h1
    _ ≤ q := Int.floor_le q

theorem wordsVal_natWordsAux (fuel : ℕ) :
    ∀ n : ℕ, n ≤ fuel → wordsVal (natWordsAux fuel n) = n := by
  induction fuel with
  | zero =>
    intro n hn
    interval_cases n
    simp [natWordsAux, wordsVal]
  | succ f ih =>
    intro n hn
    match n with
    | 0 => simp [natWordsAux, wordsVal]
    | m + 1 =>
      have hdiv : (m + 1) / bnWordSize ≤ f := by
        have h1 : (m + 1) / bnWordSize < m + 1 :=
          Nat.div_lt_self (Nat.succ_pos m) (by norm_num [bnWordSize])
        omega
      simp only [natWordsAux, wordsVal, ih _ hdiv]
      have := Nat.mod_add_div (m + 1) bnWordSize
      omega

theorem wordsVal_natWords (n : ℕ) : wordsVal (natWords n) = n :=
  wordsVal_natWordsAux n n le_rfl

theorem imulnGo_natCast (k : ℕ) :
    ∀ (ws : List ℕ) (carry : ℕ), imulnGo (k : ℚ) ws carry = carry + k * wordsVal ws := by
  intro ws
  induction ws with
  | nil => intro carry; simp [imulnGo, wordsVal]
  | cons w rest ih =>
    intro carry
    have ht : floorNatQ ((w : ℚ) * (k : ℚ)) = w * k := by
      rw [show ((w : ℚ) * (k : ℚ)) = ((w * k : ℕ) : ℚ) by push_cast; ring]
      exact floorNatQ_natCast _
    simp only [imulnGo, ht, ih]
    have hmul : k * wordsVal (w :: rest) = w * k + bnWordSize * (k * wordsVal rest) := by
      simp only [wordsVal]; ring
    rw [hmul]
    generalize w * k = t
    generalize k * wordsVal rest = r
    have h1 := Nat.mod_add_div t bnWordSize
    have h2 := Nat.mod_add_div carry bnWordSize
    have h3 := Nat.mod_add_div (t % bnWordSize + carry % bnWordSize) bnWordSize
    simp only [bnWordSize] at *
    omega

theorem bnMuln_natCast (m k : ℕ) : bnMuln m (k : ℚ) = k * m := by
  rw [bnMuln, imulnGo_natCast, wordsVal_natWords]
  omega

theorem imulnGo_le {num : ℚ} (h : 0 ≤ num) :
    ∀ (ws : List ℕ) (carry : ℕ),
      (imulnGo num ws carry : ℚ) ≤ carry + num * wordsVal ws := by
  intro ws
  induction ws with
  | nil => intro carry; simp [imulnGo, wordsVal]
  | cons w rest ih =>
    intro carry
    simp only [imulnGo, wordsVal]
    generalize hts : floorNatQ ((w : ℚ) * num) = t
    generalize hlo : t % bnWordSize + carry % bnWordSize = lo
    generalize hc : carry / bnWordSize + t / bnWordSize + lo / bnWordSize = c
    have ht_le : (t : ℚ) ≤ (w : ℚ) * num := by
      rw [← hts]
      exact floorNatQ_le (mul_nonneg (Nat.cast_nonneg w) h)
    have hkey : lo % bnWordSize + bnWordSize * c ≤ t + carry := by
      simp only [bnWordSize] at hlo hc ⊢
      omega
    have hkeyQ : ((lo % bnWordSize : ℕ) : ℚ) + (bnWordSize : ℚ) * (c : ℚ)
        ≤ (t : ℚ) + (carry : ℚ) := by exact_mod_cast hkey
    have hWnn : (0 : ℚ) ≤ (bnWordSize : ℚ) := by positivity
    have hrecW : (bnWordSize : ℚ) * (imulnGo num rest c : ℚ)
        ≤ (bnWordSize : ℚ) * ((c : ℚ) + num * (wordsVal rest : ℚ)) :=
      mul_le_mul_of_nonneg_left (ih c) hWnn
    calc ((lo % bnWordSize + bnWordSize * imulnGo num rest c : ℕ) : ℚ)
        = ((lo % bnWordSize : ℕ) : ℚ) + (bnWordSize : ℚ) * (imulnGo num rest c : ℚ) := by
          rw [Nat.cast_add, Nat.cast_mul]
      _ ≤ ((lo % bnWordSize : ℕ) : ℚ) + (bnWordSize : ℚ) * ((c : ℚ) + num * (wordsVal rest : ℚ)) := by
          linarith
      _ = (((lo % bnWordSize : ℕ) : ℚ) + (bnWordSize : ℚ) * (c : ℚ))
            + (bnWordSize : ℚ) * (num * (wordsVal rest : ℚ)) := by ring
      _ ≤ ((t : ℚ) + (carry : ℚ)) + (bnWordSize : ℚ) * (num * (wordsVal rest : ℚ)) := by
          linarith
      _ ≤ ((w : ℚ) * num + (carry : ℚ)) + (bnWordSize : ℚ) * (num * (wordsVal rest : ℚ)) := by
          linarith
      _ = (carry : ℚ) + num * ((w : ℚ) + (bnWordSize : ℚ) * (wordsVal rest : ℚ)) := by ring
      _ = (carry : ℚ) + num * ((w + bnWordSize * wordsVal rest : ℕ) : ℚ) := by
          rw [Nat.cast_add, Nat.cast_mul]

theorem bnMuln_le {num : ℚ} (h : 0 ≤ num) (m : ℕ) :
    (bnMuln m num : ℚ) ≤ num * m := by
  have := imulnGo_le h (natWords m) 0
  rw [wordsVal_natWords] at this
  simpa [bnMuln] using this

/-! ## Data model: keys, constants, instructions -/

/-- A Solana public key, identified by its base58 string. -/
abbrev PK := String

/-- The wrapped-SOL mint (`So11111111111111111111111111111111111111112`). -/
def SOL_MINT : PK := "So11111111111111111111111111111111111111112"

/-- Modelled from the spec: the v1 pools program address is one of the fixed
on-chain program addresses consumed by the library; its base58 value is
defined outside the provided sources and only its distinctness from the v2
address is used, so it is abstracted to a distinct tag string. -/
def POOLS_PROGRAM_ADDRESS : PK := "PoolsProgramV1Address"

/-- Modelled from the spec: the v2 pools program address, abstracted like
`POOLS_PROGRAM_ADDRESS`. -/
def POOLS_V2_PROGRAM_ADDRESS : PK := "PoolsProgramV2Address"

/-- Modelled from the spec: the staking program address, abstracted like
`POOLS_PROGRAM_ADDRESS`. -/
def STAKING_PROGRAM_ADDRESS : PK := "StakingProgramAddress"

/-- Modelled from the spec: the sentinel end time carried by an open farming
ticket; defined outside the provided sources, only equality against it is
used (the i64 maximum in the real constant). -/
def DEFAULT_FARMING_TICKET_END_TIME : ℕ := 9223372036854775807

/-- Modelled from the spec: `PRECISION_NOMINATOR`, the fixed-point scale used
for referral-fee rounding; defined outside the provided sources, the claims
are symbolic in it, abstracted as 10^6. -/
def PRECISION_NOMINATOR : ℕ := 1000000

/-- `TOKEN_ACCOUNT_RENT_LAMPORTS` from the pool client source. -/
def TOKEN_ACCOUNT_RENT_LAMPORTS : ℕ := 2040000

/-- The `SIDE` enum of `types.ts` (`BID = 1`, `ASK = -1`). -/
inductive SIDE where
  | BID
  | ASK
  deriving DecidableEq, Repr

/-- The `CURVE` enum of the pool module (only `PRODUCT` is used here). -/
inductive CURVE where
  | PRODUCT
  | STABLE
  deriving DecidableEq, Repr

/-- One instruction added to a transaction.  Each constructor mirrors one of
the instruction builders invoked by the clients; fields keep the accounts
and amounts the builders receive. -/
inductive Instr where
  /-- `TokenClient.createTokenAccountTransaction` (modelled from the spec as
  a single create-token-account instruction: its builder is outside the
  provided sources). -/
  | createTokenAccount (owner mint newAccount : PK) (amount : Option ℕ) (payer : Option PK)
  /-- `Pool.swapInstruction`. -/
  | swap (poolPublicKey : PK) (minIncomeAmount outcomeAmount : ℕ) (side : SIDE)
      (userBaseTokenAccount userQuoteTokenAccount : PK) (poolVersion : ℕ)
  /-- `Token.createTransferInstruction`. -/
  | transfer (source destination owner : PK) (amount : ℕ)
  /-- `Token.createCloseAccountInstruction`. -/
  | closeAccount (account destination owner : PK)
  /-- `Pool.depositLiquididtyInstruction`. -/
  | depositLiquidity (poolPublicKey : PK) (creationSize : ℕ) (userPoolTokenAccount : PK)
      (programId : PK)
  /-- `Pool.withdrawLiquidityInstruction`. -/
  | withdrawLiquidity (poolPublicKey : PK) (baseTokenReturnedMin quoteTokenReturnedMin : ℕ)
      (userBaseTokenAccount userQuoteTokenAccount : PK) (programId : PK)
  /-- `createAccountInstruction` for the fresh staking-ticket account. -/
  | createAccount (newAccountPubkey : PK)
  /-- `Staking.stakingInstruction`. -/
  | staking (poolPublicKey farmingState stakingVault userStakingTokenAccount userKey : PK)
      (tokenAmount : ℕ) (stakingTicket : PK)
  /-- `Staking.unstakingInstruction`. -/
  | unstaking (poolPublicKey farmingState stakingSnapshots stakingVault
      userStakingTokenAccount poolSigner userKey stakingTicket : PK)
  /-- `withdrawFarmedInstruction`. -/
  | withdrawFarmed (poolPublicKey farmingState farmingTokenVault farmingCalc
      userFarmingTokenAccount userKey : PK)
  deriving DecidableEq, Repr

/-- A JavaScript exception: an explicit `throw new Error(msg)`, or a runtime
type error (property access on `undefined`). -/
inductive JsError where
  | thrown (msg : String)
  | typeError
  deriving DecidableEq, Repr

/-- One parsed token account of a wallet, as returned by
`getParsedTokenAccountsByOwner` (only the mint and the pubkey are read). -/
structure WalletToken where
  mint : PK
  pubkey : PK
  deriving DecidableEq, Repr

/-! ## PoolClient -/

/-- The pool fields read by the pool client methods. -/
structure PoolFields where
  poolPublicKey : PK
  poolMint : PK
  baseTokenMint : PK
  quoteTokenMint : PK
  baseTokenVault : PK
  quoteTokenVault : PK
  poolVersion : Option ℕ
  deriving DecidableEq, Repr

/-- `PoolClient.getPoolAddress`. -/
def getPoolAddress (poolVersion : ℕ) : PK :=
  if poolVersion = 1 then POOLS_PROGRAM_ADDRESS else POOLS_V2_PROGRAM_ADDRESS

/-- A raw program account returned by `getProgramAccounts`: a public key and
the undecoded account data. -/
structure RawAccount (α : Type) where
  pubkey : PK
  data : α
  deriving DecidableEq, Repr

/-- The record built by `PoolClient.getPools` for one account: the
`POOL_LAYOUT` decoding spread together with the three added fields. -/
structure PoolRpcRecord (β : Type) where
  fields : β
  poolPublicKey : PK
  poolVersion : ℕ
  curveType : CURVE
  deriving DecidableEq, Repr

/-- The record built by `PoolClient.getV2Pools` for one account (no
`curveType` is added for v2). -/
structure PoolRpcV2Record (β : Type) where
  fields : β
  poolPublicKey : PK
  poolVersion : ℕ
  deriving DecidableEq, Repr

/-- The record built by `StakingClient.getStakingTickets` for one account. -/
structure StakingTicketRecord (β : Type) where
  fields : β
  stakingTicketPublicKey : PK
  deriving DecidableEq, Repr

/-- `PoolClient.getPools`, from the list of accounts the filtered
`getProgramAccounts` query returned; `decode` is the `POOL_LAYOUT.decode`
of the fixed binary layout (the layout itself lives outside this client). -/
def getPools {α β : Type} (decode : α → β) (accounts : List (RawAccount α)) :
    List (PoolRpcRecord β) :=
  accounts.map fun p =>
    ⟨decode p.data, p.pubkey, 1, CURVE.PRODUCT⟩

/-- `PoolClient.getV2Pools`, with `POOL_V2_LAYOUT.decode` as `decode`. -/
def getV2Pools {α β : Type} (decode : α → β) (accounts : List (RawAccount α)) :
    List (PoolRpcV2Record β) :=
  accounts.map fun p =>
    ⟨decode p.data, p.pubkey, 2⟩

/-- `StakingClient.getStakingTickets`, with `STAKING_TICKET_LAYOUT.decode`
as `decode`. -/
def getStakingTickets {α β : Type} (decode : α → β) (accounts : List (RawAccount α)) :
    List (StakingTicketRecord β) :=
  accounts.map fun t =>
    ⟨decode t.data, t.pubkey⟩

/-- Parameters of `PoolClient.depositLiquidity`. -/
structure DepositLiquidityParams where
  pool : PoolFields
  maxBaseTokenAmount : ℕ
  slippage : Option ℚ
  userPoolTokenAccount : Option PK
  walletPublicKey : PK
  deriving DecidableEq, Repr

/-- Network responses and fresh keys consumed by `depositLiquidity`: the
pool-mint supply, the base-vault balance, and the pubkey of the token
account created when the caller supplied none. -/
structure DepositLiquidityEnv where
  poolMintSupply : ℕ
  baseVaultAmount : ℕ
  newPoolTokenAccount : PK
  deriving DecidableEq, Repr

/-- The `creationSize` computed by `depositLiquidity`:
`poolMintInfo.supply.mul(maxBaseTokenAmount).div(baseVaultTokenAmount.amount).muln(1 - slippage)`. -/
def depositCreationSize (supply maxBase baseVault : ℕ) (slippage : ℚ) : ℕ :=
  bnMuln (supply * maxBase / baseVault) (1 - slippage)

/-- `PoolClient.depositLiquidity`: the instruction list of the assembled
transaction (slippage defaults to 0.01). -/
def depositLiquidity (p : DepositLiquidityParams) (env : DepositLiquidityEnv) :
    List Instr :=
  let slippage := p.slippage.getD (1 / 100)
  let creationSize :=
    depositCreationSize env.poolMintSupply p.maxBaseTokenAmount env.baseVaultAmount slippage
  let userPoolTokenAccount := p.userPoolTokenAccount.getD env.newPoolTokenAccount
  (match p.userPoolTokenAccount with
    | some _ => []
    | none => [Instr.createTokenAccount p.walletPublicKey p.pool.poolMint
        env.newPoolTokenAccount none none])
  ++ [Instr.depositLiquidity p.pool.poolPublicKey creationSize userPoolTokenAccount
        (getPoolAddress (p.pool.poolVersion.getD 1))]

/-- Parameters of `PoolClient.withdrawLiquidity` and `getMaxWithdrawable`. -/
structure WithdrawLiquidityParams where
  pool : PoolFields
  poolTokenAmount : ℕ
  baseTokenReturnedMin : Option ℕ
  quoteTokenReturnedMin : Option ℕ
  slippage : Option ℚ
  userBaseTokenAccount : Option PK
  userQuoteTokenAccount : Option PK
  walletPublicKey : PK
  deriving DecidableEq, Repr

/-- Network responses and fresh keys consumed by `withdrawLiquidity`. -/
structure WithdrawLiquidityEnv where
  poolMintSupply : ℕ
  baseVaultAmount : ℕ
  quoteVaultAmount : ℕ
  newBaseTokenAccount : PK
  newQuoteTokenAccount : PK
  deriving DecidableEq, Repr

/-- `PoolClient.getMaxWithdrawable`: the pair
`(withdrawAmountBase, withdrawAmountQuote)`, each computed as
`vaultAmount.mul(poolTokenAmount).div(supply)`. -/
def getMaxWithdrawable (p : WithdrawLiquidityParams) (env : WithdrawLiquidityEnv) :
    ℕ × ℕ :=
  (env.baseVaultAmount * p.poolTokenAmount / env.poolMintSupply,
   env.quoteVaultAmount * p.poolTokenAmount / env.poolMintSupply)

/-- `PoolClient.withdrawLiquidity`: the instruction list of the assembled
transaction (slippage defaults to 0.001; missing minimums are filled from
`getMaxWithdrawable`; a `BN` of value 0 is a truthy object in JavaScript, so
only an absent parameter triggers the fill-in). -/
def withdrawLiquidity (p : WithdrawLiquidityParams) (env : WithdrawLiquidityEnv) :
    List Instr :=
  let slippage := p.slippage.getD (1 / 1000)
  let userBaseTokenAccount := p.userBaseTokenAccount.getD env.newBaseTokenAccount
  let userQuoteTokenAccount := p.userQuoteTokenAccount.getD env.newQuoteTokenAccount
  let baseTokenReturnedMin :=
    bnMuln (p.baseTokenReturnedMin.getD (getMaxWithdrawable p env).1) (1 - slippage)
  let quoteTokenReturnedMin :=
    bnMuln (p.quoteTokenReturnedMin.getD (getMaxWithdrawable p env).2) (1 - slippage)
  (match p.userBaseTokenAccount with
    | some _ => []
    | none => [Instr.createTokenAccount p.walletPublicKey p.pool.baseTokenMint
        env.newBaseTokenAccount none none])
  ++ (match p.userQuoteTokenAccount with
    | some _ => []
    | none => [Instr.createTokenAccount p.walletPublicKey p.pool.quoteTokenMint
        env.newQuoteTokenAccount none none])
  ++ [Instr.withdrawLiquidity p.pool.poolPublicKey baseTokenReturnedMin
        quoteTokenReturnedMin userBaseTokenAccount userQuoteTokenAccount
        (getPoolAddress (p.pool.poolVersion.getD 1))]

/-! ## PoolClient.swap -/

/-- Referral parameters of `SwapParams`. -/
structure ReferralParams where
  referralAccount : PK
  referralPercent : ℚ
  createTokenAccounts : Bool
  deriving DecidableEq, Repr

/-- Parameters of `PoolClient.swap`. -/
structure SwapParams where
  pool : PoolFields
  side : SIDE
  outcomeAmount : ℕ
  minIncomeAmount : ℕ
  slippage : Option ℚ
  userBaseTokenAccount : Option PK
  userQuoteTokenAccount : Option PK
  referralParams : Option ReferralParams
  walletPublicKey : PK
  deriving DecidableEq, Repr

/-- Network responses and fresh keys consumed by `swap`: the pubkeys of the
token accounts created when the caller supplied none, the fresh account for
the referral fee destination, and the referral wallet's parsed token
accounts. -/
structure SwapEnv where
  newBaseTokenAccount : PK
  newQuoteTokenAccount : PK
  newReferralTokenAccount : PK
  referralWalletTokens : List WalletToken
  deriving DecidableEq, Repr

/-- The slippage-adjusted minimum income amount of `swap`:
`params.minIncomeAmount.muln(1000 - slippage * 1000).divn(1000)`. -/
def swapMinIncome (m : ℕ) (slippage : ℚ) : ℕ :=
  bnMuln m (1000 - slippage * 1000) / 1000

/-- The referral fee of `swap`:
`minIncomeAmount.mul(PRECISION_NOMINATOR.muln(referralPercent).divn(100)).div(PRECISION_NOMINATOR)`
(on the slippage-adjusted minimum income amount). -/
def refFee (minIncome : ℕ) (referralPercent : ℚ) : ℕ :=
  minIncome * (bnMuln PRECISION_NOMINATOR referralPercent / 100) / PRECISION_NOMINATOR

/-- The user base token account `swap` ends up using. -/
def swapUserBase (p : SwapParams) (env : SwapEnv) : PK :=
  p.userBaseTokenAccount.getD env.newBaseTokenAccount

/-- The user quote token account `swap` ends up using. -/
def swapUserQuote (p : SwapParams) (env : SwapEnv) : PK :=
  p.userQuoteTokenAccount.getD env.newQuoteTokenAccount

/-- The create-account instructions `swap` emits for a missing user base
token account (pre-funded with the outcome amount plus rent on the ask
side, where the base token is spent). -/
def swapCreateBase (p : SwapParams) (env : SwapEnv) : List Instr :=
  match p.userBaseTokenAccount with
  | some _ => []
  | none => [Instr.createTokenAccount p.walletPublicKey p.pool.baseTokenMint
      env.newBaseTokenAccount
      (if p.side = SIDE.ASK then some (p.outcomeAmount + TOKEN_ACCOUNT_RENT_LAMPORTS)
        else none) none]

/-- The create-account instructions `swap` emits for a missing user quote
token account (pre-funded on the bid side). -/
def swapCreateQuote (p : SwapParams) (env : SwapEnv) : List Instr :=
  match p.userQuoteTokenAccount with
  | some _ => []
  | none => [Instr.createTokenAccount p.walletPublicKey p.pool.quoteTokenMint
      env.newQuoteTokenAccount
      (if p.side = SIDE.BID then some (p.outcomeAmount + TOKEN_ACCOUNT_RENT_LAMPORTS)
        else none) none]

/-- The swap instruction `swap` adds. -/
def swapInstruction (p : SwapParams) (env : SwapEnv) : Instr :=
  Instr.swap p.pool.poolPublicKey
    (swapMinIncome p.minIncomeAmount (p.slippage.getD (1 / 1000)))
    p.outcomeAmount p.side (swapUserBase p env) (swapUserQuote p env)
    (p.pool.poolVersion.getD 1)

/-- The income-side mint: the quote mint on the ask side, the base mint on
the bid side. -/
def incomeMint (p : SwapParams) : PK :=
  if p.side = SIDE.ASK then p.pool.quoteTokenMint else p.pool.baseTokenMint

/-- The user token account the referral fee is taken from (the income
side). -/
def takeFeesFromAccount (p : SwapParams) (env : SwapEnv) : PK :=
  if p.side = SIDE.ASK then swapUserQuote p env else swapUserBase p env

/-- The referral wallet's token account for the income mint, if any
(`walletTokens.find(wt => wt.mint === incomeMint)?.pubkey`). -/
def referralFound (p : SwapParams) (env : SwapEnv) : Option PK :=
  (env.referralWalletTokens.find? fun wt => wt.mint == incomeMint p).map
    fun wt => wt.pubkey

/-- The referral segment of the transaction: empty without referral params;
with them, the fee transfer, preceded by a create-account instruction for
the referral wallet when it has no token account for the income mint and
`createTokenAccounts` is set; an error when it has none and the flag is not
set. -/
def swapReferralInstrs (p : SwapParams) (env : SwapEnv) : Except String (List Instr) :=
  match p.referralParams with
  | none => .ok []
  | some rp =>
    let fee := refFee (swapMinIncome p.minIncomeAmount (p.slippage.getD (1 / 1000)))
      rp.referralPercent
    match referralFound p env with
    | some dest =>
      .ok [Instr.transfer (takeFeesFromAccount p env) dest p.walletPublicKey fee]
    | none =>
      if rp.createTokenAccounts then
        .ok [Instr.createTokenAccount rp.referralAccount (incomeMint p)
              env.newReferralTokenAccount none (some p.walletPublicKey),
            Instr.transfer (takeFeesFromAccount p env) env.newReferralTokenAccount
              p.walletPublicKey fee]
      else .error "No token account for referral wallet!"

/-- The close-account instructions `swap` appends for wrapped-SOL user
accounts. -/
def swapCloseInstrs (p : SwapParams) (env : SwapEnv) : List Instr :=
  (if p.pool.baseTokenMint = SOL_MINT then
    [Instr.closeAccount (swapUserBase p env) p.walletPublicKey p.walletPublicKey]
  else [])
  ++ (if p.pool.quoteTokenMint = SOL_MINT then
    [Instr.closeAccount (swapUserQuote p env) p.walletPublicKey p.walletPublicKey]
  else [])

/-- `PoolClient.swap`: the instruction list of the assembled transaction, or
the thrown error message.  The throw happens before submission, so an error
means no transaction is sent. -/
def swap (p : SwapParams) (env : SwapEnv) : Except String (List Instr) :=
  match swapReferralInstrs p env with
  | .error e => .error e
  | .ok ref =>
    .ok (swapCreateBase p env ++ swapCreateQuote p env ++ [swapInstruction p env]
      ++ ref ++ swapCloseInstrs p env)

/-- The instruction sequence claimed for `swap` transactions: the optional
two user create-account instructions, the swap instruction, the referral
transfer exactly when referral params are present, and the two optional
close-account instructions — with no other instruction. -/
def swapClaimedInstrs (p : SwapParams) (env : SwapEnv) : List Instr :=
  swapCreateBase p env ++ swapCreateQuote p env ++ [swapInstruction p env]
  ++ (match p.referralParams with
    | none => []
    | some rp => [Instr.transfer (takeFeesFromAccount p env)
        ((referralFound p env).getD env.newReferralTokenAccount) p.walletPublicKey
        (refFee (swapMinIncome p.minIncomeAmount (p.slippage.getD (1 / 1000)))
          rp.referralPercent)])
  ++ swapCloseInstrs p env

/-- The instruction sequence of `swap` transactions as amended: additionally
a create-token-account instruction for the referral fee destination, right
before the fee transfer, when the referral wallet has no token account for
the income mint and `createTokenAccounts` is set. -/
def swapAmendedInstrs (p : SwapParams) (env : SwapEnv) : List Instr :=
  swapCreateBase p env ++ swapCreateQuote p env ++ [swapInstruction p env]
  ++ (match p.referralParams with
    | none => []
    | some rp =>
      (if (referralFound p env).isNone ∧ rp.createTokenAccounts then
        [Instr.createTokenAccount rp.referralAccount (incomeMint p)
          env.newReferralTokenAccount none (some p.walletPublicKey)]
      else [])
      ++ [Instr.transfer (takeFeesFromAccount p env)
          ((referralFound p env).getD env.newReferralTokenAccount) p.walletPublicKey
          (refFee (swapMinIncome p.minIncomeAmount (p.slippage.getD (1 / 1000)))
            rp.referralPercent)])
  ++ swapCloseInstrs p env

/-! ## StakingClient -/

/-- One entry of the staking pool's farming list, as served by the Aldrin
API (`PoolFarmingResponse`; only the fields the client reads). -/
structure PoolFarmingResponse where
  tokensTotal : ℕ
  tokensUnlocked : ℕ
  farmingState : PK
  farmingSnapshots : PK
  farmingTokenVault : PK
  deriving DecidableEq, Repr

/-- The staking pool info served by `AldrinApiPoolsClient.getStakingPoolInfo`
(absent `farming` is the falsy branch of `!stakingPool.farming`). -/
structure StakingPoolInfo where
  poolTokenMint : PK
  swapToken : PK
  stakingVault : PK
  farming : Option (List PoolFarmingResponse)
  deriving DecidableEq, Repr

/-- The farming-state item the staking operations pick: the first one whose
`tokensTotal` differs from `tokensUnlocked`. -/
def findFarmingItem (farming : List PoolFarmingResponse) : Option PoolFarmingResponse :=
  farming.find? fun item => !(item.tokensTotal == item.tokensUnlocked)

/-- A decoded staking ticket (the fields `endStaking` reads, plus the
account's public key). -/
structure StakingTicket where
  startTime : ℕ
  endTime : ℕ
  stakingTicketPublicKey : PK
  deriving DecidableEq, Repr

/-- Parameters of `StakingClient.startStaking`. -/
structure StartStakingParams where
  walletPublicKey : PK
  tokenAmount : ℕ
  deriving DecidableEq, Repr

/-- Network responses and fresh keys consumed by `startStaking`. -/
structure StartStakingEnv where
  stakingPool : StakingPoolInfo
  walletTokens : List WalletToken
  newStakingTicket : PK
  deriving DecidableEq, Repr

/-- `StakingClient.startStaking`: the instruction list of the assembled
transaction, or the thrown error. -/
def startStaking (p : StartStakingParams) (env : StartStakingEnv) :
    Except JsError (List Instr) :=
  match env.walletTokens.find? fun item => item.mint == env.stakingPool.poolTokenMint with
  | none => .error (.thrown "No account - cannot stake!")
  | some tokenAccount =>
    match env.stakingPool.farming with
    | none => .error (.thrown "Dont have any farming tickets - cannot stake!")
    | some farming =>
      match findFarmingItem farming with
      | none => .error (.thrown "Dont have farming item - cannot stake!")
      | some farmingStateItem =>
        .ok [Instr.createAccount env.newStakingTicket,
          Instr.staking env.stakingPool.swapToken farmingStateItem.farmingState
            env.stakingPool.stakingVault tokenAccount.pubkey p.walletPublicKey
            p.tokenAmount env.newStakingTicket]

/-- Parameters of `StakingClient.endStaking`. -/
structure EndStakingParams where
  walletPublicKey : PK
  deriving DecidableEq, Repr

/-- Network responses and fresh keys consumed by `endStaking`; `now` is
`Date.now() / 1000` in seconds. -/
structure EndStakingEnv where
  stakingPool : StakingPoolInfo
  walletTokens : List WalletToken
  tickets : List StakingTicket
  now : ℕ
  newTokenAccount : PK
  poolSigner : PK
  deriving DecidableEq, Repr

/-- A ticket `endStaking` closes: still open (`endTime` equals the sentinel)
and started more than 3600 seconds before now. -/
def ticketsToClose (env : EndStakingEnv) : List StakingTicket :=
  env.tickets.filter fun ticket =>
    ticket.endTime == DEFAULT_FARMING_TICKET_END_TIME
      && ticket.startTime < env.now - 3600

/-- `StakingClient.endStakingTicket`: one transaction holding one unstaking
instruction for the given ticket. -/
def endStakingTicket (walletPublicKey poolPublicKey farmingState stakingSnapshots
    stakingVault userStakingTokenAccount stakingTicket poolSigner : PK) : List Instr :=
  [Instr.unstaking poolPublicKey farmingState stakingSnapshots stakingVault
    userStakingTokenAccount poolSigner walletPublicKey stakingTicket]

/-- `StakingClient.endStaking`: one independently submitted transaction per
qualifying ticket (the `Promise.all` fan-out), or the thrown error. -/
def endStaking (p : EndStakingParams) (env : EndStakingEnv) :
    Except JsError (List (List Instr)) :=
  match env.stakingPool.farming with
  | none => .error (.thrown "Dont have any farming tickets - cannot stake!")
  | some farming =>
    match findFarmingItem farming with
    | none => .error (.thrown "Dont have farming item - cannot stake!")
    | some farmingStateItem =>
      let tokenAccountPublicKey :=
        ((env.walletTokens.find? fun item => item.mint == env.stakingPool.poolTokenMint).map
          fun item => item.pubkey).getD env.newTokenAccount
      match ticketsToClose env with
      | [] => .error (.thrown "No tickets, nothing to check")
      | _ :: _ =>
        .ok ((ticketsToClose env).map fun ticket =>
          endStakingTicket p.walletPublicKey env.stakingPool.swapToken
            farmingStateItem.farmingState farmingStateItem.farmingSnapshots
            env.stakingPool.stakingVault tokenAccountPublicKey
            ticket.stakingTicketPublicKey env.poolSigner)

/-- A decoded farming-state account (`getStakingState` record). -/
structure StakingStateRecord where
  statePublicKey : PK
  farmingTokenVault : PK
  deriving DecidableEq, Repr

/-- A decoded farming-calc account. -/
structure FarmingCalcAccount where
  farmingState : PK
  tokenAmount : ℕ
  farmingCalcPublicKey : PK
  deriving DecidableEq, Repr

/-- Parameters of `StakingClient.claim`. -/
structure ClaimParams where
  stakingPool : StakingPoolInfo
  walletPublicKey : PK
  deriving DecidableEq, Repr

/-- Network responses and fresh keys consumed by `claim`. -/
structure ClaimEnv where
  walletTokens : List WalletToken
  newTokenAccount : PK
  states : List StakingStateRecord
  calcs : List FarmingCalcAccount
  poolSigner : PK
  deriving DecidableEq, Repr

/-- The `farmingCalcs` list of `claim`: each queried farming state paired
with the first calc account pointing at it, kept when that calc account
exists and has a positive token amount. -/
def claimFarmingCalcs (env : ClaimEnv) :
    List (StakingStateRecord × Option FarmingCalcAccount) :=
  let stateKeys := env.states.map fun state => state.statePublicKey
  let calcAccountsForStates := env.calcs.filter fun ca => stateKeys.contains ca.farmingState
  (env.states.map fun st =>
      (st, calcAccountsForStates.find? fun ca => ca.farmingState == st.statePublicKey)).filter
    fun sv => match sv.2 with
      | some ca => decide (0 < ca.tokenAmount)
      | none => false

/-- `StakingClient.claim`: the instruction list of the assembled transaction,
or the error.  When `farmingCalcs` is empty, `farmingCalcs[0].state` is a
property access on `undefined`, a runtime `TypeError` rather than a thrown
`Error`. -/
def claim (p : ClaimParams) (env : ClaimEnv) : Except JsError (List Instr) :=
  match p.stakingPool.farming with
  | none => .error (.thrown "Dont have any farming tickets - cannot claim!")
  | some farming =>
    match findFarmingItem farming with
    | none => .error (.thrown "Dont have farming item - cannot claim!")
    | some farmingStateItem =>
      let tokenAccountPublicKey :=
        ((env.walletTokens.find? fun item => item.mint == p.stakingPool.poolTokenMint).map
          fun item => item.pubkey).getD env.newTokenAccount
      match claimFarmingCalcs env with
      | [] => .error .typeError
      | fc :: _ =>
        .ok [Instr.withdrawFarmed p.stakingPool.swapToken farmingStateItem.farmingState
          farmingStateItem.farmingTokenVault fc.1.statePublicKey
          tokenAccountPublicKey p.walletPublicKey]

/-! ## Static pool tables (`types.ts`) -/

/-- One entry of the static pool tables (`PoolCommon & WithPoolPK`). -/
structure PoolTableEntry where
  poolMint : PK
  poolPublicKey : PK
  baseTokenMint : PK
  quoteTokenMint : PK
  baseTokenVault : PK
  quoteTokenVault : PK
  deriving DecidableEq, Repr

/-- `AUTHORIZED_POOLS`: the static table of the nine authorized pools, keyed
by their human-readable names. -/
def AUTHORIZED_POOLS : List (String × PoolTableEntry) :=
  [("RIN_USDC",
    ⟨"Gathk79qZfJ4G36M7hiL3Ef1P5SDt7Xhm2C1vPhtWkrw",
      "Gubmyfw5Ekdp4pkXk9be5yNckSgCdgd7JEThx8SFzCQQ",
      "E5ndSkaB17Dm7CsD22dvcjfrYSDLCxFcMd6z8ddCk5wp",
      "EPjFWdd5AufqSSqeM2qN1xzybapC8G4wEGGkZwyTDt1v",
      "8YuEKfvSwcfNKvdoHijzrUAgEeevj4529m8SddSYQ8FV",
      "5P7J5sPvJmdnNX4JuhGDsNRnTihVMY8q4dHHbbmQUouJ"⟩),
   ("RIN_SOL",
    ⟨"HFNv9CeUtKFKm7gPoX1QG1NnrPnDhA5W6xqHGxmV6kxX",
      "7nrkzur3LUxgfxr3TBj9GpUsiABCwMgzwtNhHKG4hPYz",
      "E5ndSkaB17Dm7CsD22dvcjfrYSDLCxFcMd6z8ddCk5wp",
      "So11111111111111111111111111111111111111112",
      "3reyueV93V8CxXakMk4FF96uqBibDS9Di7zWgjxhkqt7",
      "3LX2NHkUux6gGjiQXY2nMCnLTr9QuCjguqh7KTwaupV5"⟩),
   ("mSOL_USDT",
    ⟨"77qHkg6TEe4FuZAr35bthTEadmT4ueWe1xomFFZkwiGQ",
      "FC4sYMpsMvdsq8hHMEtmWA8xN25W71t2c7RycU5juX35",
      "mSoLzYCxHdYgdzU16g5QSh3i5K3z3KZK7ytfqcJm7So",
      "Es9vMFrzaCERmJfrF4H2FYD4KCoNkY11McCe8BenwNYB",
      "4aiKnDHFmNnLsopVsDyRBh8sbVohZYgdGzh3P9orpqNB",
      "HFHGsYQyni5gFMGudaHWpRzN5CejNpHr42PfQ4D6aGZM"⟩),
   ("mSOL_ETH",
    ⟨"4KeZGuXPq9fyZdt5sfzHMM36mxTf3oSkDaa4Y4gHm9Hz",
      "2JANvFVV2M8dv7twzL1EF3PhEJaoJpvSt6PhnjW6AHG6",
      "mSoLzYCxHdYgdzU16g5QSh3i5K3z3KZK7ytfqcJm7So",
      "2FPyTwcZLUg1MDrwsyoP4D6s1tM7hAkHYRjkNb5w6Pxk",
      "9MaVbwbZw3LgFTNAPfDj4viRAffXFGaAdJWfX3ifouHf",
      "6YwwwDQcQz5qAEipFJXHe3vBMKDcs9nfZXLitEubMxFc"⟩),
   ("mSOL_BTC",
    ⟨"9hkYqNM8QSx2vTwspaNg5VvW1LBxKWWgud8pCVdxKYZU",
      "13FjT6LMUH9LQLQn6KGjJ1GNXKvgzoDSdxvHvAd4hcan",
      "mSoLzYCxHdYgdzU16g5QSh3i5K3z3KZK7ytfqcJm7So",
      "9n4nbM75f5Ui33ZbPYXn59EwSgE8CGsHtAeTH5YFeJ9E",
      "EhWAErmyrX8nT1eT8HVFw37amsEkm5VjKZH4ZUreDRCs",
      "Fpy5DXqdz7mfLDF8PYKVzxQrYtsaiQu36fLpv6gmGseH"⟩),
   ("mSOL_USDC",
    ⟨"H37kHxy82uLoF8t86wK414KzpVJy7uVJ9Kvt5wYsTGPh",
      "Af4TpzGpo8Yc61bCNwactPKH9F951tHPzp8XGxWRLNE1",
      "mSoLzYCxHdYgdzU16g5QSh3i5K3z3KZK7ytfqcJm7So",
      "EPjFWdd5AufqSSqeM2qN1xzybapC8G4wEGGkZwyTDt1v",
      "BEPiCaDinG2uLSBKjiVGAdDV32dwiemANKJYejtpbT2h",
      "9CDfE5NfRcQomM7bZ2fCBLe9XKebmu8QY5tBHzojS8d8"⟩),
   ("SOL_USDC",
    ⟨"3sbMDzGtyHAzJqzxE7DPdLMhrsxQASYoKLkHMYJPuWkp",
      "4GUniSDrCAZR3sKtLa1AWC8oyYubZeKJQ8KraQmy3Wt5",
      "So11111111111111111111111111111111111111112",
      "EPjFWdd5AufqSSqeM2qN1xzybapC8G4wEGGkZwyTDt1v",
      "CLt1DtCioiByTizqLhxLAXweXr2g9D4ZEAStibACBg4L",
      "2M1JTZsc71V6FhRNjCDSttcs17HewC4KNNNkkc81L3gB"⟩),
   ("mSOL_UST",
    ⟨"BE7eTJ8DB7xTu6sKsch4gWDCXbD48PLGesRLx7E1Qce4",
      "EnKhda5n5LYbZjPv7d7WChkSXzo5RgV8eSVVkGCXsQUn",
      "mSoLzYCxHdYgdzU16g5QSh3i5K3z3KZK7ytfqcJm7So",
      "9vMJfxuKxXBoEa7rM12mYLMwTacLMLDJqHozw96WQL8i",
      "29jNBEn9VEvM5ppVLGThrGc7ExnT3WyNhYyqbizpyNFK",
      "6RmiUpwLquyQWVMeYx4oktQvtCuUH48fzRMwbC5kUa4h"⟩),
   ("mSOL_MNGO",
    ⟨"EotLYRsnRVqR3euN24P9PMXCqJv1WLsV8kJxR9o1y4U7",
      "CAHchWN1xoxNvXmqmmj6U834ip585rXZbh9NkvE9vTea",
      "mSoLzYCxHdYgdzU16g5QSh3i5K3z3KZK7ytfqcJm7So",
      "MangoCzJ36AjZyKwVj3VnYU4GTonjfVEnJmvvWaxLac",
      "FE3PR8sbojxrxWoTzuLHhDX5hAXfPocS9wCruSJ2y7BF",
      "CJzgYvbf2pv6HiTu13ymSVDSRmVQFoF8rkFYvwDNWVJL"⟩)]

/-- `PERMISSIONLESS_POOLS`: the static table of the three permissionless
pools. -/
def PERMISSIONLESS_POOLS : List (String × PoolTableEntry) :=
  [("SLX_USDC",
    ⟨"E3XeF4QCTMMo8P5yrgqNMvoRJMyVPTNHhWkbRCgoeAfC",
      "Hv5F48Br7dbZvUpKFuyxxuaC4v95C1uyDGhdkFFCc9Gf",
      "AASdD9rAefJ4PP7iM89MYUsQEyCQwvBofhceZUGDh5HZ",
      "EPjFWdd5AufqSSqeM2qN1xzybapC8G4wEGGkZwyTDt1v",
      "BWwtpKxkKJSe4Vv9Ha6iGxdgWwxvy2k6qwooE6WjwUhG",
      "EF9M6hDSSTZhwdSrpKvkHn33EafZfRtaFQ9rq6MfqALm"⟩),
   ("DATE_USDC",
    ⟨"3gigDvmgCuz2gWRhr6iSxH1gCd1k4LpYoUsxEjLWJcLB",
      "F5MWosWE681D32N5QHbWWaJrXaMAD2PHhDsEr2Sac56X",
      "Ce3PSQfkxT5ua4r2JqCoWYrMwKWC5hEzwsrT9Hb7mAz9",
      "EPjFWdd5AufqSSqeM2qN1xzybapC8G4wEGGkZwyTDt1v",
      "A9FRb9MyAipfzEwkbF5euJ2dE7Bcj1GHBhdSdN8KBkoE",
      "EVdVfqSEhumJmL3adAs4qCpEGGBGUoTdqG1krqMDboi4"⟩),
   ("OOGI_USDC",
    ⟨"46EsyeSzs6tBoTRmFiGfDzGQe13LP337C7mMtdNMkgcU",
      "6sKC96Z35vCNcDmA3ZbBd9Syx5gnTJdyNKVEdzpBE5uX",
      "H7Qc9APCWWGDVxGD5fJHmLTmdEgT9GFatAKFNg6sHh8A",
      "EPjFWdd5AufqSSqeM2qN1xzybapC8G4wEGGkZwyTDt1v",
      "8fJUjr1o5i48R4URoQXDVbXmjrAUcRZWFkc2U2TMvgEd",
      "AdgHaAavPxwjBVw966dZPA9h9MbkbYXAXViGiQRBXMNJ"⟩)]

/-! ## Projections used to state the claims -/

/-- The `creationSize` carried by a deposit instruction. -/
def Instr.creationSizeOf : Instr → Option ℕ
  | .depositLiquidity _ cs _ _ => some cs
  | _ => none

/-- The minimum pair carried by a withdraw instruction. -/
def Instr.withdrawMinsOf : Instr → Option (ℕ × ℕ)
  | .withdrawLiquidity _ b q _ _ _ => some (b, q)
  | _ => none

/-- The minimum income amount carried by a swap instruction. -/
def Instr.minIncomeOf : Instr → Option ℕ
  | .swap _ mi _ _ _ _ _ => some mi
  | _ => none

/-- The pool version carried by a swap instruction. -/
def Instr.versionOf : Instr → Option ℕ
  | .swap _ _ _ _ _ _ v => some v
  | _ => none

/-- The program id carried by a deposit or withdraw instruction. -/
def Instr.programIdOf : Instr → Option PK
  | .depositLiquidity _ _ _ pid => some pid
  | .withdrawLiquidity _ _ _ _ _ pid => some pid
  | _ => none

/-- The `(source, destination, amount)` of a transfer instruction. -/
def Instr.transferOf : Instr → Option (PK × PK × ℕ)
  | .transfer s d _ a => some (s, d, a)
  | _ => none

/-! ## Decomposition lemmas for `swap` -/

theorem swap_ok_decomp (p : SwapParams) (env : SwapEnv) (l : List Instr)
    (h : swap p env = .ok l) :
    ∃ ref, swapReferralInstrs p env = .ok ref ∧
      l = swapCreateBase p env ++ swapCreateQuote p env ++ [swapInstruction p env]
        ++ ref ++ swapCloseInstrs p env := by
  unfold swap at h
  cases href : swapReferralInstrs p env with
  | error e => rw [href] at h; exact absurd h (by simp)
  | ok ref =>
    rw [href] at h
    simp only [Except.ok.injEq] at h
    exact ⟨ref, rfl, h.symm⟩

theorem swapCreateBase_minIncome (p : SwapParams) (env : SwapEnv) :
    (swapCreateBase p env).filterMap Instr.minIncomeOf = [] := by
  unfold swapCreateBase
  cases p.userBaseTokenAccount <;> simp [Instr.minIncomeOf]

theorem swapCreateQuote_minIncome (p : SwapParams) (env : SwapEnv) :
    (swapCreateQuote p env).filterMap Instr.minIncomeOf = [] := by
  unfold swapCreateQuote
  cases p.userQuoteTokenAccount <;> simp [Instr.minIncomeOf]

theorem swapCloseInstrs_minIncome (p : SwapParams) (env : SwapEnv) :
    (swapCloseInstrs p env).filterMap Instr.minIncomeOf = [] := by
  unfold swapCloseInstrs
  split <;> split <;> simp [Instr.minIncomeOf]

theorem swapCreateBase_version (p : SwapParams) (env : SwapEnv) :
    (swapCreateBase p env).filterMap Instr.versionOf = [] := by
  unfold swapCreateBase
  cases p.userBaseTokenAccount <;> simp [Instr.versionOf]

theorem swapCreateQuote_version (p : SwapParams) (env : SwapEnv) :
    (swapCreateQuote p env).filterMap Instr.versionOf = [] := by
  unfold swapCreateQuote
  cases p.userQuoteTokenAccount <;> simp [Instr.versionOf]

theorem swapCloseInstrs_version (p : SwapParams) (env : SwapEnv) :
    (swapCloseInstrs p env).filterMap Instr.versionOf = [] := by
  unfold swapCloseInstrs
  split <;> split <;> simp [Instr.versionOf]

theorem swapCreateBase_transfer (p : SwapParams) (env : SwapEnv) :
    (swapCreateBase p env).filterMap Instr.transferOf = [] := by
  unfold swapCreateBase
  cases p.userBaseTokenAccount <;> simp [Instr.transferOf]

theorem swapCreateQuote_transfer (p : SwapParams) (env : SwapEnv) :
    (swapCreateQuote p env).filterMap Instr.transferOf = [] := by
  unfold swapCreateQuote
  cases p.userQuoteTokenAccount <;> simp [Instr.transferOf]

theorem swapCloseInstrs_transfer (p : SwapParams) (env : SwapEnv) :
    (swapCloseInstrs p env).filterMap Instr.transferOf = [] := by
  unfold swapCloseInstrs
  split <;> split <;> simp [Instr.transferOf]

theorem swapReferralInstrs_no_swap (p : SwapParams) (env : SwapEnv) (ref : List Instr)
    (h : swapReferralInstrs p env = .ok ref) :
    ref.filterMap Instr.minIncomeOf = [] ∧ ref.filterMap Instr.versionOf = [] := by
  unfold swapReferralInstrs at h
  cases hrp : p.referralParams with
  | none => rw [hrp] at h; simp only [Except.ok.injEq] at h; subst h; simp
  | some rp =>
    rw [hrp] at h
    cases hf : referralFound p env with
    | some dest =>
      rw [hf] at h; simp only [Except.ok.injEq] at h; subst h
      simp [Instr.minIncomeOf, Instr.versionOf]
    | none =>
      rw [hf] at h
      by_cases hct : rp.createTokenAccounts
      · simp only [hct, if_true, Except.ok.injEq] at h; subst h
        simp [Instr.minIncomeOf, Instr.versionOf]
      · simp only [hct, if_false] at h; exact absurd h (by simp)

theorem swapReferralInstrs_transferOf (p : SwapParams) (env : SwapEnv) (ref : List Instr)
    (h : swapReferralInstrs p env = .ok ref) :
    ref.filterMap Instr.transferOf
      = (match p.referralParams with
        | none => []
        | some rp => [(takeFeesFromAccount p env,
            (referralFound p env).getD env.newReferralTokenAccount,
            refFee (swapMinIncome p.minIncomeAmount (p.slippage.getD (1 / 1000)))
              rp.referralPercent)]) := by
  unfold swapReferralInstrs at h
  cases hrp : p.referralParams with
  | none => rw [hrp] at h; simp only [Except.ok.injEq] at h; subst h; simp
  | some rp =>
    rw [hrp] at h
    cases hf : referralFound p env with
    | some dest =>
      rw [hf] at h; simp only [Except.ok.injEq] at h; subst h
      simp [Instr.transferOf]
    | none =>
      rw [hf] at h
      by_cases hct : rp.createTokenAccounts
      · simp only [hct, if_true, Except.ok.injEq] at h; subst h
        simp [Instr.transferOf]
      · simp only [hct, if_false] at h; exact absurd h (by simp)

/-! ## Claims C3, C7, C10 -/

/-- C3: `getPools` returns exactly one record per queried account, the
`POOL_LAYOUT` decoding of its data extended with the account's public key,
pool version 1 and the product curve type; `getV2Pools` does the same with
`POOL_V2_LAYOUT` and version 2 (adding no curve type); `getStakingTickets`
does the same with `STAKING_TICKET_LAYOUT`, extending with the ticket's
public key. -/
theorem claim_C3 {α β : Type} (decode : α → β) (accs : List (RawAccount α)) (i : ℕ) :
    (getPools decode accs).length = accs.length
      ∧ (getPools decode accs)[i]?
          = (accs[i]?).map (fun p => ⟨decode p.data, p.pubkey, 1, CURVE.PRODUCT⟩)
      ∧ (getV2Pools decode accs).length = accs.length
      ∧ (getV2Pools decode accs)[i]?
          = (accs[i]?).map (fun p => ⟨decode p.data, p.pubkey, 2⟩)
      ∧ (getStakingTickets decode accs).length = accs.length
      ∧ (getStakingTickets decode accs)[i]?
          = (accs[i]?).map (fun t => ⟨decode t.data, t.pubkey⟩) := by
  refine ⟨?_, ?_, ?_, ?_, ?_, ?_⟩ <;>
    simp [getPools, getV2Pools, getStakingTickets, List.getElem?_map]

/-- C7: the static pool tables hold exactly the nine authorized and three
permissionless pools under their fixed human-readable names (no two names
collide); the tables are top-level constants, and no operation of the
library takes or returns them, so nothing can modify them. -/
theorem claim_C7 :
    AUTHORIZED_POOLS.map Prod.fst
        = ["RIN_USDC", "RIN_SOL", "mSOL_USDT", "mSOL_ETH", "mSOL_BTC", "mSOL_USDC",
            "SOL_USDC", "mSOL_UST", "mSOL_MNGO"]
      ∧ AUTHORIZED_POOLS.length = 9
      ∧ PERMISSIONLESS_POOLS.map Prod.fst = ["SLX_USDC", "DATE_USDC", "OOGI_USDC"]
      ∧ PERMISSIONLESS_POOLS.length = 3
      ∧ (AUTHORIZED_POOLS.map Prod.fst ++ PERMISSIONLESS_POOLS.map Prod.fst).Nodup := by
  refine ⟨rfl, rfl, rfl, rfl, ?_⟩
  decide

theorem nat_lt_div_succ_mul (x s : ℕ) (h : 0 < s) : x < (x / s + 1) * s := by
  have h1 := Nat.div_add_mod x s
  have h2 := Nat.mod_lt x h
  have h3 : (x / s + 1) * s = s * (x / s) + s := by ring
  rw [h3]
  omega

/-- C10: with a positive pool-mint supply, `getMaxWithdrawable` returns the
two exact floor quotients `vaultAmount * poolTokenAmount / supply`; the
floor characterization (`q * supply ≤ product < (q + 1) * supply`) pins the
integer-arithmetic reading down. -/
theorem claim_C10 (p : WithdrawLiquidityParams) (env : WithdrawLiquidityEnv)
    (h : 0 < env.poolMintSupply) :
    (getMaxWithdrawable p env).1
        = env.baseVaultAmount * p.poolTokenAmount / env.poolMintSupply
      ∧ (getMaxWithdrawable p env).2
        = env.quoteVaultAmount * p.poolTokenAmount / env.poolMintSupply
      ∧ (getMaxWithdrawable p env).1 * env.poolMintSupply
        ≤ env.baseVaultAmount * p.poolTokenAmount
      ∧ env.baseVaultAmount * p.poolTokenAmount
        < ((getMaxWithdrawable p env).1 + 1) * env.poolMintSupply
      ∧ (getMaxWithdrawable p env).2 * env.poolMintSupply
        ≤ env.quoteVaultAmount * p.poolTokenAmount
      ∧ env.quoteVaultAmount * p.poolTokenAmount
        < ((getMaxWithdrawable p env).2 + 1) * env.poolMintSupply := by
  refine ⟨rfl, rfl, ?_, ?_, ?_, ?_⟩
  · exact Nat.div_mul_le_self _ _
  · exact nat_lt_div_succ_mul _ _ h
  · exact Nat.div_mul_le_self _ _
  · exact nat_lt_div_succ_mul _ _ h

/-- Witness for C10 at a concrete input: supply 7, base vault 100, quote
vault 50, pool token amount 3. -/
theorem claim_C10_witness :
    0 < (7 : ℕ)
      ∧ ((getMaxWithdrawable
          ⟨⟨"pp", "pm", "bm", "qm", "bv", "qv", none⟩, 3, none, none, none, none, none, "w"⟩
          ⟨7, 100, 50, "nb", "nq"⟩).1 = 100 * 3 / 7
        ∧ (getMaxWithdrawable
          ⟨⟨"pp", "pm", "bm", "qm", "bv", "qv", none⟩, 3, none, none, none, none, none, "w"⟩
          ⟨7, 100, 50, "nb", "nq"⟩).2 = 50 * 3 / 7
        ∧ (getMaxWithdrawable
          ⟨⟨"pp", "pm", "bm", "qm", "bv", "qv", none⟩, 3, none, none, none, none, none, "w"⟩
          ⟨7, 100, 50, "nb", "nq"⟩).1 * 7 ≤ 100 * 3
        ∧ 100 * 3 < ((getMaxWithdrawable
          ⟨⟨"pp", "pm", "bm", "qm", "bv", "qv", none⟩, 3, none, none, none, none, none, "w"⟩
          ⟨7, 100, 50, "nb", "nq"⟩).1 + 1) * 7
        ∧ (getMaxWithdrawable
          ⟨⟨"pp", "pm", "bm", "qm", "bv", "qv", none⟩, 3, none, none, none, none, none, "w"⟩
          ⟨7, 100, 50, "nb", "nq"⟩).2 * 7 ≤ 50 * 3
        ∧ 50 * 3 < ((getMaxWithdrawable
          ⟨⟨"pp", "pm", "bm", "qm", "bv", "qv", none⟩, 3, none, none, none, none, none, "w"⟩
          ⟨7, 100, 50, "nb", "nq"⟩).2 + 1) * 7) :=
  ⟨by decide, claim_C10 _ _ (by decide)⟩

set_option maxRecDepth 20000

instance {ε α : Type} [DecidableEq ε] [DecidableEq α] : DecidableEq (Except ε α) := fun x y =>
  match x, y with
  | .error u, .error v =>
    if h : u = v then isTrue (congrArg Except.error h)
    else isFalse (fun hh => h (by injection hh))
  | .error _, .ok _ => isFalse (fun hh => Except.noConfusion hh)
  | .ok _, .error _ => isFalse (fun hh => Except.noConfusion hh)
  | .ok u, .ok v =>
    if h : u = v then isTrue (congrArg Except.ok h)
    else isFalse (fun hh => h (by injection hh))

/-- C8: `getPoolAddress` returns the v1 program address exactly for version
1 and the v2 address otherwise; `depositLiquidity`, `withdrawLiquidity` and
`swap` all treat an absent `poolVersion` as version 1 (the deposit and
withdraw instructions then carry the v1 program id, the swap instruction
carries pool version 1). -/
theorem claim_C8 (v : ℕ) (dp : DepositLiquidityParams) (denv : DepositLiquidityEnv)
    (wp : WithdrawLiquidityParams) (wenv : WithdrawLiquidityEnv)
    (p : SwapParams) (env : SwapEnv) (l : List Instr)
    (hd : dp.pool.poolVersion = none) (hw : wp.pool.poolVersion = none)
    (hp : p.pool.poolVersion = none) (hok : swap p env = .ok l) :
    (getPoolAddress v = POOLS_PROGRAM_ADDRESS ↔ v = 1)
      ∧ (v ≠ 1 → getPoolAddress v = POOLS_V2_PROGRAM_ADDRESS)
      ∧ (depositLiquidity dp denv).filterMap Instr.programIdOf = [POOLS_PROGRAM_ADDRESS]
      ∧ (withdrawLiquidity wp wenv).filterMap Instr.programIdOf = [POOLS_PROGRAM_ADDRESS]
      ∧ l.filterMap Instr.versionOf = [1] := by
  have hAB : POOLS_V2_PROGRAM_ADDRESS ≠ POOLS_PROGRAM_ADDRESS := by decide
  refine ⟨?_, ?_, ?_, ?_, ?_⟩
  · by_cases hv : v = 1 <;> simp [getPoolAddress, hv, hAB]
  · intro hv; simp [getPoolAddress, hv]
  · cases hu : dp.userPoolTokenAccount <;>
      simp [depositLiquidity, hu, hd, Instr.programIdOf, getPoolAddress]
  · cases hub : wp.userBaseTokenAccount <;> cases huq : wp.userQuoteTokenAccount <;>
      simp [withdrawLiquidity, hub, huq, hw, Instr.programIdOf, getPoolAddress]
  · obtain ⟨ref, href, hl⟩ := swap_ok_decomp p env l hok
    subst hl
    have href := (swapReferralInstrs_no_swap p env ref href).2
    simp [List.filterMap_append, swapCreateBase_version, swapCreateQuote_version,
      swapCloseInstrs_version, href, swapInstruction, Instr.versionOf, hp]

/-- Parameters of a plain swap used by concrete witnesses: both user token
accounts supplied, no referral, default slippage, version absent. -/
def swapDefaultParams : SwapParams :=
  ⟨⟨"pool", "pm", "bmint", "qmint", "bv", "qv", none⟩, SIDE.BID, 5, 1000, none,
    some "ub", some "uq", none, "wallet"⟩

/-- Environment of the plain witness swap. -/
def swapDefaultEnv : SwapEnv := ⟨"nb", "nq", "nr", []⟩

/-- The single instruction the plain witness swap assembles. -/
def swapDefaultList : List Instr :=
  [Instr.swap "pool" 999 5 SIDE.BID "ub" "uq" 1]

/-- Witness for C8 at concrete inputs (version 2 for the address part,
version-less pools elsewhere). -/
theorem claim_C8_witness :
    ((⟨⟨"pool", "pm", "bm", "qm", "bv", "qv", none⟩, 10, none, some "upt",
        "w"⟩ : DepositLiquidityParams).pool.poolVersion = none)
      ∧ ((⟨⟨"pool", "pm", "bm", "qm", "bv", "qv", none⟩, 3, some 100, some 50, none,
          some "wb", some "wq", "w"⟩ : WithdrawLiquidityParams).pool.poolVersion = none)
      ∧ swapDefaultParams.pool.poolVersion = none
      ∧ swap swapDefaultParams swapDefaultEnv = .ok swapDefaultList
      ∧ ((getPoolAddress 2 = POOLS_PROGRAM_ADDRESS ↔ (2 : ℕ) = 1)
        ∧ ((2 : ℕ) ≠ 1 → getPoolAddress 2 = POOLS_V2_PROGRAM_ADDRESS)
        ∧ (depositLiquidity
            ⟨⟨"pool", "pm", "bm", "qm", "bv", "qv", none⟩, 10, none, some "upt", "w"⟩
            ⟨100, 7, "npt"⟩).filterMap Instr.programIdOf = [POOLS_PROGRAM_ADDRESS]
        ∧ (withdrawLiquidity
            ⟨⟨"pool", "pm", "bm", "qm", "bv", "qv", none⟩, 3, some 100, some 50, none,
              some "wb", some "wq", "w"⟩
            ⟨100, 60, 30, "nwb", "nwq"⟩).filterMap Instr.programIdOf
            = [POOLS_PROGRAM_ADDRESS]
        ∧ swapDefaultList.filterMap Instr.versionOf = [1]) :=
  ⟨by decide, by decide, by decide, by with_unfolding_all decide,
    claim_C8 2
      ⟨⟨"pool", "pm", "bm", "qm", "bv", "qv", none⟩, 10, none, some "upt", "w"⟩
      ⟨100, 7, "npt"⟩
      ⟨⟨"pool", "pm", "bm", "qm", "bv", "qv", none⟩, 3, some 100, some 50, none,
        some "wb", some "wq", "w"⟩
      ⟨100, 60, 30, "nwb", "nwq"⟩
      swapDefaultParams swapDefaultEnv swapDefaultList
      (by decide) (by decide) (by decide) (by with_unfolding_all decide)⟩

/-- C9 as stated fails: with slippage 1/2000 (an exact double, reaching
bn.js as the scalar 999.5) and minimum income 2^26, the word-wise
truncating `muln` yields 999 · 2^26, so the instruction carries
⌊999 · 2^26 / 1000⌋ = 67041755, while the claimed exact-arithmetic value is
⌊2^26 · 999.5 / 1000⌋ = 67075309. -/
theorem claim_C9_counterexample :
    swap ⟨⟨"pool", "pm", "bmint", "qmint", "bv", "qv", none⟩, SIDE.BID, 5, 67108864,
          some (1 / 2000), some "ub", some "uq", none, "wallet"⟩
        ⟨"nb", "nq", "nr", []⟩
        = .ok [Instr.swap "pool" (swapMinIncome 67108864 (1 / 2000)) 5 SIDE.BID
            "ub" "uq" 1]
      ∧ swapMinIncome 67108864 (1 / 2000) = 67041755
      ∧ (⌊(67108864 : ℚ) * (1000 - 1 / 2000 * 1000) / 1000⌋).toNat = 67075309
      ∧ (67041755 : ℕ) ≠ 67075309 := by
  refine ⟨?_, ?_, ?_, ?_⟩
  · with_unfolding_all rfl
  · with_unfolding_all decide
  · with_unfolding_all decide
  · decide

/-- C9 (amended): provided the slippage (default 0.001) is a whole number
of thousandths `j / 1000`, `j ≤ 1000` — which includes the default — the
minimum income amount placed in the swap instruction is exactly
`minIncomeAmount * (1000 - j) / 1000` in integer arithmetic; with the
default it is `999 * m / 1000`. -/
theorem claim_C9_amended (p : SwapParams) (env : SwapEnv) (l : List Instr) (j : ℕ)
    (hj : j ≤ 1000) (hs : p.slippage.getD (1 / 1000) = (j : ℚ) / 1000)
    (hok : swap p env = .ok l) :
    l.filterMap Instr.minIncomeOf = [p.minIncomeAmount * (1000 - j) / 1000] := by
  obtain ⟨ref, href, hl⟩ := swap_ok_decomp p env l hok
  subst hl
  have href := (swapReferralInstrs_no_swap p env ref href).1
  simp only [List.filterMap_append, swapCreateBase_minIncome, swapCreateQuote_minIncome,
    swapCloseInstrs_minIncome, href, List.filterMap_cons, List.filterMap_nil,
    swapInstruction, Instr.minIncomeOf, List.nil_append, List.append_nil,
    List.cons.injEq, and_true]
  rw [hs]
  unfold swapMinIncome
  have hq : (1000 : ℚ) - (j : ℚ) / 1000 * 1000 = ((1000 - j : ℕ) : ℚ) := by
    rw [Nat.cast_sub hj]
    push_cast
    ring
  rw [hq, bnMuln_natCast, Nat.mul_comm]

/-- Witness for C9 (amended) at the default slippage: minimum income 1000
becomes 1000 * 999 / 1000 = 999. -/
theorem claim_C9_witness :
    (1 : ℕ) ≤ 1000
      ∧ swapDefaultParams.slippage.getD (1 / 1000) = ((1 : ℕ) : ℚ) / 1000
      ∧ swap swapDefaultParams swapDefaultEnv = .ok swapDefaultList
      ∧ swapDefaultList.filterMap Instr.minIncomeOf
        = [swapDefaultParams.minIncomeAmount * (1000 - 1) / 1000] :=
  ⟨by decide, by with_unfolding_all decide, by with_unfolding_all decide,
    claim_C9_amended swapDefaultParams swapDefaultEnv swapDefaultList 1 (by decide)
      (by with_unfolding_all decide) (by with_unfolding_all decide)⟩

/-- C4: the pool-token `creationSize` passed to the deposit instruction is
the floor quotient `supply * maxBaseTokenAmount / baseVaultAmount` scaled by
the slippage factor `1 - slippage` through bn.js `muln` (slippage defaulting
to 0.01), and the two minimums placed in the withdraw instruction are the
given-or-computed minimums each scaled by `1 - slippage` the same way
(default 0.001); the scaled value never exceeds the exact product. -/
theorem claim_C4 (dp : DepositLiquidityParams) (denv : DepositLiquidityEnv)
    (wp : WithdrawLiquidityParams) (wenv : WithdrawLiquidityEnv)
    (hd : dp.slippage.getD (1 / 100) ≤ 1) (hw : wp.slippage.getD (1 / 1000) ≤ 1) :
    (depositLiquidity dp denv).filterMap Instr.creationSizeOf
        = [bnMuln (denv.poolMintSupply * dp.maxBaseTokenAmount / denv.baseVaultAmount)
            (1 - dp.slippage.getD (1 / 100))]
      ∧ ((bnMuln (denv.poolMintSupply * dp.maxBaseTokenAmount / denv.baseVaultAmount)
            (1 - dp.slippage.getD (1 / 100)) : ℚ)
          ≤ (1 - dp.slippage.getD (1 / 100))
            * ((denv.poolMintSupply * dp.maxBaseTokenAmount / denv.baseVaultAmount : ℕ) : ℚ))
      ∧ (withdrawLiquidity wp wenv).filterMap Instr.withdrawMinsOf
        = [(bnMuln (wp.baseTokenReturnedMin.getD (getMaxWithdrawable wp wenv).1)
              (1 - wp.slippage.getD (1 / 1000)),
            bnMuln (wp.quoteTokenReturnedMin.getD (getMaxWithdrawable wp wenv).2)
              (1 - wp.slippage.getD (1 / 1000)))]
      ∧ ((bnMuln (wp.baseTokenReturnedMin.getD (getMaxWithdrawable wp wenv).1)
            (1 - wp.slippage.getD (1 / 1000)) : ℚ)
          ≤ (1 - wp.slippage.getD (1 / 1000))
            * ((wp.baseTokenReturnedMin.getD (getMaxWithdrawable wp wenv).1 : ℕ) : ℚ))
      ∧ ((bnMuln (wp.quoteTokenReturnedMin.getD (getMaxWithdrawable wp wenv).2)
            (1 - wp.slippage.getD (1 / 1000)) : ℚ)
          ≤ (1 - wp.slippage.getD (1 / 1000))
            * ((wp.quoteTokenReturnedMin.getD (getMaxWithdrawable wp wenv).2 : ℕ) : ℚ)) := by
  have hd0 : (0 : ℚ) ≤ 1 - dp.slippage.getD (1 / 100) := by linarith
  have hw0 : (0 : ℚ) ≤ 1 - wp.slippage.getD (1 / 1000) := by linarith
  refine ⟨?_, bnMuln_le hd0 _, ?_, bnMuln_le hw0 _, bnMuln_le hw0 _⟩
  · cases hu : dp.userPoolTokenAccount <;>
      simp [depositLiquidity, depositCreationSize, hu, Instr.creationSizeOf]
  · cases hub : wp.userBaseTokenAccount <;> cases huq : wp.userQuoteTokenAccount <;>
      simp [withdrawLiquidity, hub, huq, Instr.withdrawMinsOf]

/-- Witness for C4 at concrete inputs with default slippages: deposit
creation size bnMuln(100 * 10 / 7, 0.99) and withdraw minimums
bnMuln(100, 0.999), bnMuln(50, 0.999). -/
theorem claim_C4_witness :
    ((none : Option ℚ).getD (1 / 100) ≤ 1 ∧ (none : Option ℚ).getD (1 / 1000) ≤ 1)
      ∧ ((depositLiquidity
            ⟨⟨"pool", "pm", "bm", "qm", "bv", "qv", none⟩, 10, none, some "upt", "w"⟩
            ⟨100, 7, "npt"⟩).filterMap Instr.creationSizeOf
          = [bnMuln (100 * 10 / 7) (1 - (none : Option ℚ).getD (1 / 100))]
        ∧ ((bnMuln (100 * 10 / 7) (1 - (none : Option ℚ).getD (1 / 100)) : ℚ)
          ≤ (1 - (none : Option ℚ).getD (1 / 100)) * ((100 * 10 / 7 : ℕ) : ℚ))
        ∧ (withdrawLiquidity
            ⟨⟨"pool", "pm", "bm", "qm", "bv", "qv", none⟩, 3, some 100, some 50, none,
              some "wb", some "wq", "w"⟩
            ⟨100, 60, 30, "nwb", "nwq"⟩).filterMap Instr.withdrawMinsOf
          = [(bnMuln ((some 100).getD (getMaxWithdrawable
                ⟨⟨"pool", "pm", "bm", "qm", "bv", "qv", none⟩, 3, some 100, some 50, none,
                  some "wb", some "wq", "w"⟩ ⟨100, 60, 30, "nwb", "nwq"⟩).1)
              (1 - (none : Option ℚ).getD (1 / 1000)),
             bnMuln ((some 50).getD (getMaxWithdrawable
                ⟨⟨"pool", "pm", "bm", "qm", "bv", "qv", none⟩, 3, some 100, some 50, none,
                  some "wb", some "wq", "w"⟩ ⟨100, 60, 30, "nwb", "nwq"⟩).2)
              (1 - (none : Option ℚ).getD (1 / 1000)))]
        ∧ ((bnMuln ((some 100).getD (getMaxWithdrawable
              ⟨⟨"pool", "pm", "bm", "qm", "bv", "qv", none⟩, 3, some 100, some 50, none,
                some "wb", some "wq", "w"⟩ ⟨100, 60, 30, "nwb", "nwq"⟩).1)
            (1 - (none : Option ℚ).getD (1 / 1000)) : ℚ)
          ≤ (1 - (none : Option ℚ).getD (1 / 1000))
            * (((some 100).getD (getMaxWithdrawable
                ⟨⟨"pool", "pm", "bm", "qm", "bv", "qv", none⟩, 3, some 100, some 50, none,
                  some "wb", some "wq", "w"⟩ ⟨100, 60, 30, "nwb", "nwq"⟩).1 : ℕ) : ℚ))
        ∧ ((bnMuln ((some 50).getD (getMaxWithdrawable
              ⟨⟨"pool", "pm", "bm", "qm", "bv", "qv", none⟩, 3, some 100, some 50, none,
                some "wb", some "wq", "w"⟩ ⟨100, 60, 30, "nwb", "nwq"⟩).2)
            (1 - (none : Option ℚ).getD (1 / 1000)) : ℚ)
          ≤ (1 - (none : Option ℚ).getD (1 / 1000))
            * (((some 50).getD (getMaxWithdrawable
                ⟨⟨"pool", "pm", "bm", "qm", "bv", "qv", none⟩, 3, some 100, some 50, none,
                  some "wb", some "wq", "w"⟩ ⟨100, 60, 30, "nwb", "nwq"⟩).2 : ℕ) : ℚ))) :=
  ⟨⟨by with_unfolding_all decide, by with_unfolding_all decide⟩,
    claim_C4 ⟨⟨"pool", "pm", "bm", "qm", "bv", "qv", none⟩, 10, none, some "upt", "w"⟩
      ⟨100, 7, "npt"⟩
      ⟨⟨"pool", "pm", "bm", "qm", "bv", "qv", none⟩, 3, some 100, some 50, none,
        some "wb", some "wq", "w"⟩
      ⟨100, 60, 30, "nwb", "nwq"⟩
      (by with_unfolding_all decide) (by with_unfolding_all decide)⟩

theorem refFee_natCast (mi r : ℕ) :
    refFee mi (r : ℚ) = mi * (PRECISION_NOMINATOR * r / 100) / PRECISION_NOMINATOR := by
  unfold refFee
  rw [bnMuln_natCast, Nat.mul_comm r PRECISION_NOMINATOR]

theorem natWordsAux_zero (fuel : ℕ) : natWordsAux fuel 0 = [] := by
  cases fuel <;> rfl

theorem bnMuln_single (m : ℕ) (hm : m < bnWordSize) (q : ℚ) :
    bnMuln m q = floorNatQ ((m : ℚ) * q) := by
  cases m with
  | zero => simp [bnMuln, natWords, natWordsAux, imulnGo, floorNatQ]
  | succ k =>
    have hw : natWords (k + 1) = [k + 1] := by
      unfold natWords natWordsAux
      rw [Nat.mod_eq_of_lt hm, Nat.div_eq_of_lt hm, natWordsAux_zero]
    rw [bnMuln, hw]
    simp only [imulnGo]
    generalize floorNatQ ((↑(k + 1) : ℚ) * q) = t
    simp only [bnWordSize]
    omega

theorem floorNatQ_eq {x : ℚ} {k : ℕ} (h1 : (k : ℚ) ≤ x) (h2 : x < k + 1) :
    floorNatQ x = k := by
  unfold floorNatQ
  have hfloor : ⌊x⌋ = (k : ℤ) := by
    rw [Int.floor_eq_iff]
    constructor
    · exact_mod_cast h1
    · exact_mod_cast h2
  rw [hfloor]
  exact Int.toNat_natCast k

theorem floorNatQ_cast_eq {q : ℚ} (h : 0 ≤ q) :
    ((floorNatQ q : ℕ) : ℚ) = ((⌊q⌋ : ℤ) : ℚ) := by
  unfold floorNatQ
  have h0 : (0 : ℤ) ≤ ⌊q⌋ := Int.floor_nonneg.mpr h
  exact_mod_cast congrArg (fun z : ℤ => (z : ℚ)) (Int.toNat_of_nonneg h0)

theorem floorNatQ_div_nat {q : ℚ} (h : 0 ≤ q) {n : ℕ} (hn : 0 < n) :
    floorNatQ (q / n) = floorNatQ q / n := by
  have hnQ : (0 : ℚ) < (n : ℚ) := by exact_mod_cast hn
  have ha : ((floorNatQ q : ℕ) : ℚ) ≤ q := floorNatQ_le h
  have hb : q < ((floorNatQ q : ℕ) : ℚ) + 1 := by
    rw [floorNatQ_cast_eq h]
    exact_mod_cast Int.lt_floor_add_one q
  apply floorNatQ_eq
  · rw [le_div_iff₀ hnQ]
    have hmul : (floorNatQ q / n) * n ≤ floorNatQ q := Nat.div_mul_le_self _ _
    calc ((floorNatQ q / n : ℕ) : ℚ) * (n : ℚ)
        = (((floorNatQ q / n) * n : ℕ) : ℚ) := by push_cast; ring
      _ ≤ ((floorNatQ q : ℕ) : ℚ) := by exact_mod_cast hmul
      _ ≤ q := ha
  · rw [div_lt_iff₀ hnQ]
    have hmul : floorNatQ q < (floorNatQ q / n + 1) * n := nat_lt_div_succ_mul _ _ hn
    have hmul1 : floorNatQ q + 1 ≤ (floorNatQ q / n + 1) * n := hmul
    calc q < ((floorNatQ q : ℕ) : ℚ) + 1 := hb
      _ = (((floorNatQ q + 1 : ℕ)) : ℚ) := by push_cast; ring
      _ ≤ (((floorNatQ q / n + 1) * n : ℕ) : ℚ) := by exact_mod_cast hmul1
      _ = (((floorNatQ q / n : ℕ) : ℚ) + 1) * (n : ℚ) := by push_cast; ring

theorem refFee_eq (mi : ℕ) (q : ℚ) (hq : 0 ≤ q) :
    refFee mi q
      = mi * floorNatQ ((PRECISION_NOMINATOR : ℚ) * q / 100) / PRECISION_NOMINATOR := by
  unfold refFee
  rw [bnMuln_single PRECISION_NOMINATOR (by norm_num [PRECISION_NOMINATOR, bnWordSize]) q]
  rw [← floorNatQ_div_nat (mul_nonneg (by positivity) hq) (show (0 : ℕ) < 100 by norm_num)]
  norm_num

/-- C5: with referral params present and a non-negative referral percent,
if the referral wallet owns no token account for the income mint and
`createTokenAccounts` is unset, `swap` throws
"No token account for referral wallet!" (so nothing is submitted);
otherwise the assembled transaction's unique transfer instruction moves
`minIncome * floor(PRECISION_NOMINATOR * percent / 100) / PRECISION_NOMINATOR`
(on the slippage-adjusted minimum income) from the income-side user token
account to the referral destination.  `PRECISION_NOMINATOR` fits one bn.js
word, so `muln` by any non-negative scalar is an exact floor there and the
claim's inner floor holds for fractional percents too. -/
theorem claim_C5 (p : SwapParams) (env : SwapEnv) (rp : ReferralParams)
    (l : List Instr) (hrp : p.referralParams = some rp)
    (hq : 0 ≤ rp.referralPercent) :
    ((referralFound p env).isNone = true ∧ rp.createTokenAccounts = false →
        swap p env = .error "No token account for referral wallet!")
      ∧ (swap p env = .ok l →
        l.filterMap Instr.transferOf
          = [(takeFeesFromAccount p env,
              (referralFound p env).getD env.newReferralTokenAccount,
              swapMinIncome p.minIncomeAmount (p.slippage.getD (1 / 1000))
                * floorNatQ ((PRECISION_NOMINATOR : ℚ) * rp.referralPercent / 100)
                / PRECISION_NOMINATOR)]) := by
  constructor
  · rintro ⟨hnone, hct⟩
    rw [Option.isNone_iff_eq_none] at hnone
    unfold swap swapReferralInstrs
    rw [hrp, hnone]
    simp [hct]
  · intro hok
    obtain ⟨ref, href, hl⟩ := swap_ok_decomp p env l hok
    subst hl
    have htr := swapReferralInstrs_transferOf p env ref href
    rw [hrp] at htr
    simp only [List.filterMap_append, swapCreateBase_transfer, swapCreateQuote_transfer,
      swapCloseInstrs_transfer, htr, List.filterMap_cons, List.filterMap_nil,
      swapInstruction, Instr.transferOf, List.nil_append, List.append_nil]
    rw [refFee_eq _ _ hq]

/-- Parameters of the concrete C5 swap: fractional referral percent 0.5,
flag unset. -/
def c5Params : SwapParams :=
  ⟨⟨"pool", "pm", "bmint", "qmint", "bv", "qv", none⟩, SIDE.BID, 5, 1000, none,
    some "ub", some "uq", some ⟨"refacc", 1 / 2, false⟩, "wallet"⟩

/-- C5 environment in which the referral wallet owns the income-mint
account `rta`. -/
def c5Env : SwapEnv := ⟨"nb", "nq", "nr", [⟨"bmint", "rta"⟩]⟩

/-- C5 environment in which the referral wallet owns no token account. -/
def c5EnvEmpty : SwapEnv := ⟨"nb", "nq", "nr", []⟩

/-- The transaction the concrete C5 swap assembles: the fee transfer moves
999 * 5000 / 1000000 = 4 units. -/
def c5List : List Instr :=
  [Instr.swap "pool" 999 5 SIDE.BID "ub" "uq" 1,
   Instr.transfer "ub" "rta" "wallet" 4]

/-- Witness for C5, applying the theorem twice: once with the referral
wallet owning the income-mint account (the transfer branch, at the
fractional percent 0.5), once with no account and `createTokenAccounts`
unset (the thrown error). -/
theorem claim_C5_witness :
    (c5Params.referralParams = some ⟨"refacc", 1 / 2, false⟩
      ∧ (0 : ℚ) ≤ (⟨"refacc", 1 / 2, false⟩ : ReferralParams).referralPercent
      ∧ (swap c5Params c5Env = .ok c5List →
        c5List.filterMap Instr.transferOf
          = [(takeFeesFromAccount c5Params c5Env,
              (referralFound c5Params c5Env).getD c5Env.newReferralTokenAccount,
              swapMinIncome c5Params.minIncomeAmount (c5Params.slippage.getD (1 / 1000))
                * floorNatQ ((PRECISION_NOMINATOR : ℚ)
                    * (⟨"refacc", 1 / 2, false⟩ : ReferralParams).referralPercent / 100)
                / PRECISION_NOMINATOR)])
      ∧ swap c5Params c5Env = .ok c5List)
    ∧ ((referralFound c5Params c5EnvEmpty).isNone = true
      ∧ (⟨"refacc", 1 / 2, false⟩ : ReferralParams).createTokenAccounts = false
      ∧ swap c5Params c5EnvEmpty = .error "No token account for referral wallet!") := by
  have h1 : swap c5Params c5Env = .ok c5List := by with_unfolding_all decide
  have hrp : c5Params.referralParams = some ⟨"refacc", 1 / 2, false⟩ := by
    with_unfolding_all decide
  have hq : (0 : ℚ) ≤ (⟨"refacc", 1 / 2, false⟩ : ReferralParams).referralPercent := by
    with_unfolding_all decide
  refine ⟨⟨hrp, hq, ?_, h1⟩, by decide, by with_unfolding_all decide, ?_⟩
  · exact (claim_C5 c5Params c5Env ⟨"refacc", 1 / 2, false⟩ c5List hrp hq).2
  · exact (claim_C5 c5Params c5EnvEmpty ⟨"refacc", 1 / 2, false⟩ [] hrp hq).1
      ⟨by decide, by with_unfolding_all decide⟩

theorem swapReferralInstrs_ok_eq (p : SwapParams) (env : SwapEnv) (ref : List Instr)
    (h : swapReferralInstrs p env = .ok ref) :
    ref = (match p.referralParams with
      | none => []
      | some rp =>
        (if (referralFound p env).isNone ∧ rp.createTokenAccounts then
          [Instr.createTokenAccount rp.referralAccount (incomeMint p)
            env.newReferralTokenAccount none (some p.walletPublicKey)]
        else [])
        ++ [Instr.transfer (takeFeesFromAccount p env)
            ((referralFound p env).getD env.newReferralTokenAccount) p.walletPublicKey
            (refFee (swapMinIncome p.minIncomeAmount (p.slippage.getD (1 / 1000)))
              rp.referralPercent)]) := by
  unfold swapReferralInstrs at h
  cases hrp : p.referralParams with
  | none => rw [hrp] at h; simp only [Except.ok.injEq] at h; subst h; rfl
  | some rp =>
    rw [hrp] at h
    cases hf : referralFound p env with
    | some dest =>
      rw [hf] at h
      simp only [Except.ok.injEq] at h
      subst h
      simp
    | none =>
      rw [hf] at h
      by_cases hct : rp.createTokenAccounts
      · simp only [hct, if_true, Except.ok.injEq] at h
        subst h
        simp [hct]
      · simp only [hct, if_false] at h
        exact absurd h (by simp)

/-- C1 as stated fails: when referral params carry `createTokenAccounts`
and the referral wallet has no token account for the income mint, `swap`
inserts an extra create-token-account instruction between the swap
instruction and the fee transfer, which the claimed six-part sequence does
not contain. -/
def c1Params : SwapParams :=
  ⟨⟨"pool", "pm", "bmint", "qmint", "bv", "qv", none⟩, SIDE.BID, 5, 1000, none,
    some "ub", some "uq", some ⟨"refacc", 1, true⟩, "wallet"⟩

/-- Environment of the C1 counterexample: the referral wallet owns no token
accounts. -/
def c1Env : SwapEnv := ⟨"nb", "nq", "nr", []⟩

/-- The transaction actually assembled in the C1 counterexample. -/
def c1List : List Instr :=
  [Instr.swap "pool" 999 5 SIDE.BID "ub" "uq" 1,
   Instr.createTokenAccount "refacc" "bmint" "nr" none (some "wallet"),
   Instr.transfer "ub" "nr" "wallet" 9]

/-- C1 counterexample: the assembled transaction differs from the claimed
instruction sequence (it holds an extra create-token-account instruction
for the referral destination before the fee transfer). -/
theorem claim_C1_counterexample :
    swap c1Params c1Env = .ok c1List
      ∧ c1List ≠ swapClaimedInstrs c1Params c1Env := by
  constructor
  · with_unfolding_all decide
  · with_unfolding_all decide

/-- C1 (amended): every transaction `swap` assembles is exactly: a
create-token-account instruction for the user base token account if none
was supplied, then one for the user quote token account if none was
supplied, then the swap instruction, then — exactly when referral params
are present — the referral fee transfer, preceded by a
create-token-account instruction for the referral destination when the
referral wallet lacks one and `createTokenAccounts` is set, then a
close-account instruction for the user base token account exactly when the
base mint is SOL, and finally one for the user quote token account exactly
when the quote mint is SOL. -/
theorem claim_C1_amended (p : SwapParams) (env : SwapEnv) (l : List Instr)
    (hok : swap p env = .ok l) : l = swapAmendedInstrs p env := by
  obtain ⟨ref, href, hl⟩ := swap_ok_decomp p env l hok
  subst hl
  rw [swapReferralInstrs_ok_eq p env ref href]
  rfl

/-- Witness for C1 (amended) at the plain concrete swap. -/
theorem claim_C1_witness :
    swap swapDefaultParams swapDefaultEnv = .ok swapDefaultList
      ∧ swapDefaultList = swapAmendedInstrs swapDefaultParams swapDefaultEnv := by
  have h1 : swap swapDefaultParams swapDefaultEnv = .ok swapDefaultList := by
    with_unfolding_all decide
  exact ⟨h1, claim_C1_amended _ _ _ h1⟩

/-- Whether a result failed through an explicitly thrown `Error`. -/
def isThrownError {α : Type} : Except JsError α → Bool
  | .error (.thrown _) => true
  | _ => false

/-- C2 counterexample parameters: the staking pool has a live farming state
(tokensTotal 10 ≠ tokensUnlocked 5). -/
def c2ClaimParams : ClaimParams :=
  ⟨⟨"ptm", "swaptok", "svault", some [⟨10, 5, "fs", "fsnap", "ftv"⟩]⟩, "wallet"⟩

/-- C2 counterexample environment: no farming-calc account exists, so no
calc account with a positive token amount either. -/
def c2ClaimEnv : ClaimEnv := ⟨[], "nta", [], [], "psig"⟩

/-- C2 as stated fails: when no farming-calc account with a positive token
amount exists, `claim` reads `.state` off `farmingCalcs[0]`, which is
`undefined` — a runtime `TypeError`, not a simple thrown `Error`. -/
theorem claim_C2_counterexample :
    claim c2ClaimParams c2ClaimEnv = .error JsError.typeError
      ∧ isThrownError (claim c2ClaimParams c2ClaimEnv) = false := by
  decide

/-- C2 (amended): `startStaking` throws "No account - cannot stake!" when
the wallet owns no token account for the staking pool token mint, "Dont
have any farming tickets - cannot stake!" when the pool has no farming
list, and "Dont have farming item - cannot stake!" when no farming state
has `tokensTotal ≠ tokensUnlocked`; `endStaking` throws "No tickets,
nothing to check" when no ticket qualifies for closing; `claim` throws the
corresponding errors when the farming state is missing, but when no
farming-calc account with a positive token amount exists it fails with a
runtime `TypeError` (undefined element access), not a thrown `Error`. -/
theorem claim_C2_amended
    (p1 : StartStakingParams) (eA eB eC : StartStakingEnv)
    (p2 : EndStakingParams) (eD : EndStakingEnv)
    (pc1 pc2 pc3 : ClaimParams) (eE eF eG : ClaimEnv)
    (flC flD flF flG : List PoolFarmingResponse)
    (itemD itemG : PoolFarmingResponse)
    (hA : eA.walletTokens.find? (fun item => item.mint == eA.stakingPool.poolTokenMint)
      = none)
    (hB1 : (eB.walletTokens.find?
      (fun item => item.mint == eB.stakingPool.poolTokenMint)).isSome = true)
    (hB2 : eB.stakingPool.farming = none)
    (hC1 : (eC.walletTokens.find?
      (fun item => item.mint == eC.stakingPool.poolTokenMint)).isSome = true)
    (hC2 : eC.stakingPool.farming = some flC)
    (hC3 : findFarmingItem flC = none)
    (hD1 : eD.stakingPool.farming = some flD)
    (hD2 : findFarmingItem flD = some itemD)
    (hD3 : ticketsToClose eD = [])
    (hE : pc1.stakingPool.farming = none)
    (hF1 : pc2.stakingPool.farming = some flF)
    (hF2 : findFarmingItem flF = none)
    (hG1 : pc3.stakingPool.farming = some flG)
    (hG2 : findFarmingItem flG = some itemG)
    (hG3 : claimFarmingCalcs eG = []) :
    startStaking p1 eA = .error (.thrown "No account - cannot stake!")
      ∧ startStaking p1 eB = .error (.thrown "Dont have any farming tickets - cannot stake!")
      ∧ startStaking p1 eC = .error (.thrown "Dont have farming item - cannot stake!")
      ∧ endStaking p2 eD = .error (.thrown "No tickets, nothing to check")
      ∧ claim pc1 eE = .error (.thrown "Dont have any farming tickets - cannot claim!")
      ∧ claim pc2 eF = .error (.thrown "Dont have farming item - cannot claim!")
      ∧ claim pc3 eG = .error JsError.typeError := by
  obtain ⟨tB, htB⟩ := Option.isSome_iff_exists.mp hB1
  obtain ⟨tC, htC⟩ := Option.isSome_iff_exists.mp hC1
  refine ⟨?_, ?_, ?_, ?_, ?_, ?_, ?_⟩
  · unfold startStaking; rw [hA]
  · unfold startStaking; rw [htB, hB2]
  · unfold startStaking; rw [htC, hC2]; simp [hC3]
  · unfold endStaking; rw [hD1]; simp [hD2, hD3]
  · unfold claim; rw [hE]
  · unfold claim; rw [hF1]; simp [hF2]
  · unfold claim; rw [hG1]; simp [hG2, hG3]

/-- Start-staking environment with no wallet token account. -/
def c2EnvA : StartStakingEnv := ⟨⟨"ptm", "st", "sv", some []⟩, [], "tick"⟩

/-- Start-staking environment with the token account but no farming list. -/
def c2EnvB : StartStakingEnv := ⟨⟨"ptm", "st", "sv", none⟩, [⟨"ptm", "ta"⟩], "tick"⟩

/-- Start-staking environment whose only farming state is fully unlocked. -/
def c2EnvC : StartStakingEnv :=
  ⟨⟨"ptm", "st", "sv", some [⟨5, 5, "fs", "fsn", "ftv"⟩]⟩, [⟨"ptm", "ta"⟩], "tick"⟩

/-- End-staking environment with a live farming state but no tickets. -/
def c2EnvD : EndStakingEnv :=
  ⟨⟨"ptm", "st", "sv", some [⟨10, 5, "fs", "fsn", "ftv"⟩]⟩, [], [], 10000, "nta", "psig"⟩

/-- Claim parameters with no farming list. -/
def c2ClaimParamsE : ClaimParams := ⟨⟨"ptm", "st", "sv", none⟩, "w"⟩

/-- Claim parameters whose only farming state is fully unlocked. -/
def c2ClaimParamsF : ClaimParams :=
  ⟨⟨"ptm", "st", "sv", some [⟨5, 5, "fs", "fsn", "ftv"⟩]⟩, "w"⟩

/-- Witness for C2 (amended), instantiating every scenario concretely. -/
theorem claim_C2_witness :
    (c2EnvA.walletTokens.find?
        (fun item => item.mint == c2EnvA.stakingPool.poolTokenMint) = none)
      ∧ ((c2EnvB.walletTokens.find?
        (fun item => item.mint == c2EnvB.stakingPool.poolTokenMint)).isSome = true)
      ∧ c2EnvB.stakingPool.farming = none
      ∧ ((c2EnvC.walletTokens.find?
        (fun item => item.mint == c2EnvC.stakingPool.poolTokenMint)).isSome = true)
      ∧ c2EnvC.stakingPool.farming = some [⟨5, 5, "fs", "fsn", "ftv"⟩]
      ∧ findFarmingItem [⟨5, 5, "fs", "fsn", "ftv"⟩] = none
      ∧ c2EnvD.stakingPool.farming = some [⟨10, 5, "fs", "fsn", "ftv"⟩]
      ∧ findFarmingItem [⟨10, 5, "fs", "fsn", "ftv"⟩] = some ⟨10, 5, "fs", "fsn", "ftv"⟩
      ∧ ticketsToClose c2EnvD = []
      ∧ c2ClaimParamsE.stakingPool.farming = none
      ∧ c2ClaimParamsF.stakingPool.farming = some [⟨5, 5, "fs", "fsn", "ftv"⟩]
      ∧ c2ClaimParams.stakingPool.farming = some [⟨10, 5, "fs", "fsnap", "ftv"⟩]
      ∧ findFarmingItem [⟨10, 5, "fs", "fsnap", "ftv"⟩] = some ⟨10, 5, "fs", "fsnap", "ftv"⟩
      ∧ claimFarmingCalcs c2ClaimEnv = []
      ∧ (startStaking ⟨"wallet", 100⟩ c2EnvA
          = .error (.thrown "No account - cannot stake!")
        ∧ startStaking ⟨"wallet", 100⟩ c2EnvB
          = .error (.thrown "Dont have any farming tickets - cannot stake!")
        ∧ startStaking ⟨"wallet", 100⟩ c2EnvC
          = .error (.thrown "Dont have farming item - cannot stake!")
        ∧ endStaking ⟨"wallet"⟩ c2EnvD = .error (.thrown "No tickets, nothing to check")
        ∧ claim c2ClaimParamsE c2ClaimEnv
          = .error (.thrown "Dont have any farming tickets - cannot claim!")
        ∧ claim c2ClaimParamsF c2ClaimEnv
          = .error (.thrown "Dont have farming item - cannot claim!")
        ∧ claim c2ClaimParams c2ClaimEnv = .error JsError.typeError) := by
  refine ⟨by decide, by decide, by decide, by decide, by decide, by decide, by decide,
    by decide, by decide, by decide, by decide, by decide, by decide, by decide, ?_⟩
  exact claim_C2_amended ⟨"wallet", 100⟩ c2EnvA c2EnvB c2EnvC ⟨"wallet"⟩ c2EnvD
    c2ClaimParamsE c2ClaimParamsF c2ClaimParams c2ClaimEnv c2ClaimEnv c2ClaimEnv
    [⟨5, 5, "fs", "fsn", "ftv"⟩] [⟨10, 5, "fs", "fsn", "ftv"⟩]
    [⟨5, 5, "fs", "fsn", "ftv"⟩] [⟨10, 5, "fs", "fsnap", "ftv"⟩]
    ⟨10, 5, "fs", "fsn", "ftv"⟩ ⟨10, 5, "fs", "fsnap", "ftv"⟩
    (by decide) (by decide) (by decide) (by decide) (by decide) (by decide)
    (by decide) (by decide) (by decide) (by decide) (by decide) (by decide)
    (by decide) (by decide) (by decide)

/-- C6: when `endStaking` succeeds it submits exactly one independent
transaction per qualifying ticket — a ticket still carrying the sentinel
end time whose start time lies more than 3600 seconds before now — and
only for those; each transaction holds a single unstaking instruction
naming only its own ticket, so the submissions share no per-ticket data and
no compensation links them. -/
theorem claim_C6 (p : EndStakingParams) (env : EndStakingEnv)
    (fl : List PoolFarmingResponse) (item : PoolFarmingResponse)
    (txs : List (List Instr))
    (hf : env.stakingPool.farming = some fl) (hitem : findFarmingItem fl = some item)
    (hok : endStaking p env = .ok txs) :
    txs = (ticketsToClose env).map (fun ticket =>
        [Instr.unstaking env.stakingPool.swapToken item.farmingState item.farmingSnapshots
          env.stakingPool.stakingVault
          (((env.walletTokens.find? fun it => it.mint == env.stakingPool.poolTokenMint).map
            fun it => it.pubkey).getD env.newTokenAccount)
          env.poolSigner p.walletPublicKey ticket.stakingTicketPublicKey])
      ∧ ticketsToClose env
        = env.tickets.filter (fun ticket =>
            ticket.endTime == DEFAULT_FARMING_TICKET_END_TIME
              && ticket.startTime < env.now - 3600)
      ∧ ticketsToClose env ≠ [] := by
  unfold endStaking at hok
  rw [hf] at hok
  have h2 : ticketsToClose env
      = env.tickets.filter (fun ticket =>
          ticket.endTime == DEFAULT_FARMING_TICKET_END_TIME
            && ticket.startTime < env.now - 3600) := rfl
  cases htc : ticketsToClose env with
  | nil => simp [hitem, htc] at hok
  | cons t ts =>
    simp only [hitem, htc, Except.ok.injEq] at hok
    exact ⟨hok.symm, htc.symm.trans h2, by simp [htc]⟩

/-- End-staking environment of the C6 witness: of three tickets, exactly
one is still open and older than an hour. -/
def c6Env : EndStakingEnv :=
  ⟨⟨"ptm", "swaptok", "svault", some [⟨10, 5, "fs", "fsnap", "ftv"⟩]⟩, [⟨"ptm", "ta"⟩],
    [⟨100, DEFAULT_FARMING_TICKET_END_TIME, "t1"⟩, ⟨100, 5, "t2"⟩,
      ⟨9000, DEFAULT_FARMING_TICKET_END_TIME, "t3"⟩], 10000, "nta", "psig"⟩

/-- The one-transaction fan-out of the C6 witness. -/
def c6Txs : List (List Instr) :=
  [[Instr.unstaking "swaptok" "fs" "fsnap" "svault" "ta" "psig" "wallet" "t1"]]

/-- Witness for C6 at the concrete environment. -/
theorem claim_C6_witness :
    c6Env.stakingPool.farming = some [⟨10, 5, "fs", "fsnap", "ftv"⟩]
      ∧ findFarmingItem [⟨10, 5, "fs", "fsnap", "ftv"⟩] = some ⟨10, 5, "fs", "fsnap", "ftv"⟩
      ∧ endStaking ⟨"wallet"⟩ c6Env = .ok c6Txs
      ∧ (c6Txs = (ticketsToClose c6Env).map (fun ticket =>
          [Instr.unstaking c6Env.stakingPool.swapToken "fs" "fsnap"
            c6Env.stakingPool.stakingVault
            (((c6Env.walletTokens.find? fun it =>
                it.mint == c6Env.stakingPool.poolTokenMint).map
              fun it => it.pubkey).getD c6Env.newTokenAccount)
            c6Env.poolSigner "wallet" ticket.stakingTicketPublicKey])
        ∧ ticketsToClose c6Env
          = c6Env.tickets.filter (fun ticket =>
              ticket.endTime == DEFAULT_FARMING_TICKET_END_TIME
                && ticket.startTime < c6Env.now - 3600)
        ∧ ticketsToClose c6Env ≠ []) := by
  have h1 : endStaking ⟨"wallet"⟩ c6Env = .ok c6Txs := by decide
  exact ⟨by decide, by decide, h1,
    claim_C6 ⟨"wallet"⟩ c6Env [⟨10, 5, "fs", "fsnap", "ftv"⟩] ⟨10, 5, "fs", "fsnap", "ftv"⟩
      c6Txs (by decide) (by decide) h1⟩
